import Mathlib

/-!
Shallow embedding of the subnetscanner repository (site_scanner.py,
device_registry.py, device_manager.py, device_socket_based_handler.py and
the six device handlers), together with theorems settling the frozen
claims about it.

Conventions of the embedding:
* Python dicts are association lists in insertion order; a dict update of
  an existing key rewrites the value in place, a new key is appended.
* Python JSON values are the `Json` inductive below; `loads` models
  `json.loads` (strict RFC-8259 grammar, whitespace-tolerant, rejecting
  trailing data).  JSON numbers are represented as rationals.
* Python exceptions are modelled with `Except String`; the carried string
  is a diagnostic tag, its exact text is not load-bearing unless a claim
  asserts an exact message.
* Machine integers are `Int`/`Nat`; Python ints are unbounded, so no
  modular arithmetic is needed.
-/

namespace SubnetScanner

/-- JSON values as produced by Python's json module.  Object entries keep
their textual order; duplicate keys are resolved by `objLookup`, which
returns the last binding, matching Python dict construction. -/
inductive Json where
  | null : Json
  | bool (b : Bool) : Json
  | num (q : ℚ) : Json
  | str (s : String) : Json
  | arr (elems : List Json) : Json
  | obj (entries : List (String × Json)) : Json

/-- Whitespace accepted by the JSON grammar (and by `str.strip` for the
characters that actually occur in the scanner's inputs). -/
def isJsonWs (c : Char) : Bool :=
  c = ' ' || c = '\t' || c = '\n' || c = '\r'

/-- Drop leading JSON whitespace. -/
def skipWs : List Char → List Char
  | c :: cs => if isJsonWs c then skipWs cs else c :: cs
  | [] => []

/-- Longest prefix of decimal digits, with the rest of the input. -/
def takeDigits : List Char → List Char × List Char
  | c :: cs =>
    if c.isDigit then
      let (ds, rest) := takeDigits cs
      (c :: ds, rest)
    else ([], c :: cs)
  | [] => ([], [])

/-- Numeric value of a digit string (digits already validated). -/
def digitsToNat (ds : List Char) : Nat :=
  ds.foldl (fun acc c => acc * 10 + (c.toNat - '0'.toNat)) 0

/-- Parse a JSON number literal: -? int frac? exp?, with the RFC rule that
the integer part is a single 0 or starts with a nonzero digit. -/
def parseNum (cs : List Char) : Option (ℚ × List Char) :=
  let (sign, cs1) : ℚ × List Char :=
    match cs with
    | '-' :: rest => (-1, rest)
    | rest => (1, rest)
  let (intDs, cs2) := takeDigits cs1
  if intDs.isEmpty then none
  else if intDs.length > 1 && intDs.headD '0' = '0' then none
  else
    let ipart : ℚ := (digitsToNat intDs : ℚ)
    let (fpart, cs3) : ℚ × List Char :=
      match cs2 with
      | '.' :: rest =>
        let (fds, rest2) := takeDigits rest
        if fds.isEmpty then (0, '.' :: rest)
        else ((digitsToNat fds : ℚ) / ((10 : ℚ) ^ fds.length), rest2)
      | rest => (0, rest)
    -- a fraction dot with no digits is a parse error in JSON
    match cs2, fpart, cs3 with
    | '.' :: _, _, '.' :: _ => none
    | _, _, _ =>
      let (epart, cs4) : Option ℤ × List Char :=
        match cs3 with
        | 'e' :: rest | 'E' :: rest =>
          let (esign, rest1) : ℤ × List Char :=
            match rest with
            | '+' :: r => (1, r)
            | '-' :: r => (-1, r)
            | r => (1, r)
          let (eds, rest2) := takeDigits rest1
          if eds.isEmpty then (none, cs3)
          else (some (esign * (digitsToNat eds : ℤ)), rest2)
        | rest => (some 0, rest)
      match epart with
      | none => none
      | some e => some (sign * (ipart + fpart) * (10 : ℚ) ^ e, cs4)

/-- Hex digit value, if any. -/
def hexVal (c : Char) : Option Nat :=
  let n := c.toNat
  if 48 ≤ n ∧ n ≤ 57 then some (n - 48)
  else if 97 ≤ n ∧ n ≤ 102 then some (n - 87)
  else if 65 ≤ n ∧ n ≤ 70 then some (n - 55)
  else none

/-- Parse the body of a JSON string literal (the opening quote already
consumed), handling the escape sequences of the grammar.  Lone \u escapes
are mapped directly to the code point; surrogate pairing is not needed for
any payload in this repository. -/
def parseStrBody : Nat → List Char → Option (List Char × List Char)
  | 0, _ => none
  | _, [] => none
  | fuel + 1, c :: cs =>
    if c = '"' then some ([], cs)
    else if c = '\\' then
      match cs with
      | '"' :: rest => (parseStrBody fuel rest).map (fun p => ('"' :: p.1, p.2))
      | '\\' :: rest => (parseStrBody fuel rest).map (fun p => ('\\' :: p.1, p.2))
      | '/' :: rest => (parseStrBody fuel rest).map (fun p => ('/' :: p.1, p.2))
      | 'b' :: rest => (parseStrBody fuel rest).map (fun p => ('\x08' :: p.1, p.2))
      | 'f' :: rest => (parseStrBody fuel rest).map (fun p => ('\x0c' :: p.1, p.2))
      | 'n' :: rest => (parseStrBody fuel rest).map (fun p => ('\n' :: p.1, p.2))
      | 'r' :: rest => (parseStrBody fuel rest).map (fun p => ('\r' :: p.1, p.2))
      | 't' :: rest => (parseStrBody fuel rest).map (fun p => ('\t' :: p.1, p.2))
      | 'u' :: h1 :: h2 :: h3 :: h4 :: rest =>
        match hexVal h1, hexVal h2, hexVal h3, hexVal h4 with
        | some a, some b, some c2, some d =>
          let code := ((a * 16 + b) * 16 + c2) * 16 + d
          if code.isValidChar then
            (parseStrBody fuel rest).map (fun p => (Char.ofNat code :: p.1, p.2))
          else none
        | _, _, _, _ => none
      | _ => none
    else if c.toNat < 0x20 then none
    else (parseStrBody fuel cs).map (fun p => (c :: p.1, p.2))

mutual

/-- Recursive-descent JSON value parser (fuel-bounded). -/
def parseValue : Nat → List Char → Option (Json × List Char)
  | 0, _ => none
  | fuel + 1, cs =>
    match skipWs cs with
    | 'n' :: 'u' :: 'l' :: 'l' :: rest => some (.null, rest)
    | 't' :: 'r' :: 'u' :: 'e' :: rest => some (.bool true, rest)
    | 'f' :: 'a' :: 'l' :: 's' :: 'e' :: rest => some (.bool false, rest)
    | '"' :: rest =>
      (parseStrBody (rest.length + 1) rest).map (fun p => (.str (String.mk p.1), p.2))
    | '[' :: rest =>
      (match skipWs rest with
       | ']' :: rest2 => some (.arr [], rest2)
       | rest2 => (parseElems fuel rest2).map (fun p => (.arr p.1, p.2)))
    | '{' :: rest =>
      (match skipWs rest with
       | '}' :: rest2 => some (.obj [], rest2)
       | rest2 => (parseMembers fuel rest2).map (fun p => (.obj p.1, p.2)))
    | rest => (parseNum rest).map (fun p => (.num p.1, p.2))

/-- Comma-separated array elements, up to the closing bracket. -/
def parseElems : Nat → List Char → Option (List Json × List Char)
  | 0, _ => none
  | fuel + 1, cs => do
    let (v, rest) ← parseValue fuel cs
    match skipWs rest with
    | ',' :: rest2 => (parseElems fuel rest2).map (fun p => (v :: p.1, p.2))
    | ']' :: rest2 => some ([v], rest2)
    | _ => none

/-- Comma-separated object members, up to the closing brace. -/
def parseMembers : Nat → List Char → Option (List (String × Json) × List Char)
  | 0, _ => none
  | fuel + 1, cs =>
    match skipWs cs with
    | '"' :: rest => do
      let (k, rest1) ← parseStrBody (rest.length + 1) rest
      match skipWs rest1 with
      | ':' :: rest2 => do
        let (v, rest3) ← parseValue fuel rest2
        match skipWs rest3 with
        | ',' :: rest4 =>
          (parseMembers fuel rest4).map (fun p => ((String.mk k, v) :: p.1, p.2))
        | '}' :: rest4 => some ([(String.mk k, v)], rest4)
        | _ => none
      | _ => none
    | _ => none

end

/-- Model of Python json.loads: parse one value, allow surrounding
whitespace, reject trailing data. -/
def loads (s : String) : Option Json :=
  let cs := s.toList
  match parseValue (2 * cs.length + 8) cs with
  | some (j, rest) => if (skipWs rest).isEmpty then some j else none
  | none => none

/-! ### Python-semantics helpers

Small models of the Python operations the scanner uses on parsed JSON
values.  Exceptions are `Except.error` with a diagnostic tag. -/

/-- Whether the first list is an initial segment of the second. -/
def startsWithChars : List Char → List Char → Bool
  | [], _ => true
  | _ :: _, [] => false
  | n :: ns, h :: hs => n = h && startsWithChars ns hs

/-- Whether the first list occurs contiguously inside the second. -/
def isSubChars (needle : List Char) : List Char → Bool
  | [] => needle.isEmpty
  | c :: rest => startsWithChars needle (c :: rest) || isSubChars needle rest

/-- Last-binding lookup in an object entry list, matching the dict that
Python's json module builds when keys repeat. -/
def objLookup (entries : List (String × Json)) (k : String) : Option Json :=
  entries.foldl (fun acc p => if p.1 = k then some p.2 else acc) none

/-- Python truthiness of a JSON value. -/
def pyTruthy : Json → Bool
  | .null => false
  | .bool b => b
  | .num q => q ≠ 0
  | .str s => s ≠ ""
  | .arr xs => ¬ xs.isEmpty
  | .obj entries => ¬ entries.isEmpty

/-- Python `k in x` for a string k: dict key membership, list element
membership, substring test for strings; TypeError otherwise. -/
def pyContains (j : Json) (k : String) : Except String Bool :=
  match j with
  | .obj entries => .ok (entries.any (fun p => p.1 = k))
  | .arr xs => .ok (xs.any (fun e => match e with | .str s => s = k | _ => false))
  | .str s => .ok (isSubChars k.toList s.toList)
  | _ => .error "TypeError: argument not iterable"

/-- Python `len(x)`: strings, lists and dicts have a length; TypeError
otherwise. -/
def pyLen (j : Json) : Except String Nat :=
  match j with
  | .str s => .ok s.length
  | .arr xs => .ok xs.length
  | .obj entries => .ok entries.length
  | _ => .error "TypeError: object has no len"

/-- Python `x[i]` for a nonnegative integer index: list indexing, string
indexing (yielding a one-character string); a dict raises KeyError for an
integer key (all object keys here are strings); TypeError otherwise. -/
def pyIndexNat (j : Json) (i : Nat) : Except String Json :=
  match j with
  | .arr xs => match xs[i]? with
    | some v => .ok v
    | none => .error "IndexError: list index out of range"
  | .str s => match s.toList[i]? with
    | some c => .ok (.str (String.mk [c]))
    | none => .error "IndexError: string index out of range"
  | .obj _ => .error "KeyError: integer key"
  | _ => .error "TypeError: object is not subscriptable"

/-- Python `x[k]` for a string key: dict lookup (KeyError when absent);
strings and lists raise TypeError for string subscripts. -/
def pySubscriptStr (j : Json) (k : String) : Except String Json :=
  match j with
  | .obj entries => match objLookup entries k with
    | some v => .ok v
    | none => .error "KeyError"
  | .str _ => .error "TypeError: string indices must be integers"
  | .arr _ => .error "TypeError: list indices must be integers"
  | _ => .error "TypeError: object is not subscriptable"

/-- Python `x.get(k, dflt)`: only dicts have `.get`; anything else raises
AttributeError. -/
def pyDictGetD (j : Json) (k : String) (dflt : Json) : Except String Json :=
  match j with
  | .obj entries => .ok ((objLookup entries k).getD dflt)
  | _ => .error "AttributeError: object has no attribute get"

/-- Python `x == 0` on a JSON value (False == 0 is True in Python; no
exception is possible). -/
def pyEqZero : Json → Bool
  | .num q => q = 0
  | .bool b => ¬ b
  | _ => false

/-- Digit run parse used by the model of Python `int(str)`. -/
def digitsOnlyToNat? (cs : List Char) : Option Nat :=
  if cs.isEmpty then none
  else if cs.all Char.isDigit then some (digitsToNat cs) else none

/-- Python `str.strip()` (whitespace from both ends). -/
def pyStrip (s : String) : String :=
  String.mk (((s.toList.dropWhile isJsonWs).reverse.dropWhile isJsonWs).reverse)

/-- Python `int(x)`: truncation for numbers, digit parsing (with optional
sign and surrounding whitespace) for strings, 0/1 for booleans; TypeError
for anything else. -/
def pyToInt (j : Json) : Except String Int :=
  match j with
  | .num q => .ok (if q ≥ 0 then ⌊q⌋ else ⌈q⌉)
  | .bool b => .ok (if b then 1 else 0)
  | .str s =>
    let cs := (pyStrip s).toList
    let (sign, ds) : Int × List Char :=
      match cs with
      | '-' :: rest => (-1, rest)
      | '+' :: rest => (1, rest)
      | rest => (1, rest)
    match digitsOnlyToNat? ds with
    | some n => .ok (sign * n)
    | none => .error "ValueError: invalid literal for int"
  | _ => .error "TypeError: int argument must be a number or string"

/-- Rendering a JSON value into an f-string, as far as the scanner's
diagnostic messages need it.  Exact text is load-bearing only for string
payloads; compound values get a placeholder tag. -/
def pyStrOfJson : Json → String
  | .null => "None"
  | .bool b => if b then "True" else "False"
  | .num q => if q.den = 1 then toString q.num else "<float>"
  | .str s => s
  | .arr _ => "<list>"
  | .obj _ => "<dict>"

/-- Python `str.lower()` restricted to ASCII, which is all the scanner
compares. -/
def pyLower (s : String) : String :=
  String.mk (s.toList.map Char.toLower)

/-- Substring test (`needle in haystack` for strings). -/
def containsSub (haystack needle : String) : Bool :=
  isSubChars needle.toList haystack.toList

/-- Python `s.rstrip(c)` for a single strip character. -/
def rstripChar (c : Char) (s : String) : String :=
  String.mk ((s.toList.reverse.dropWhile (· = c)).reverse)

/-- Python `str.split("\n")`. -/
def splitOnNewline (s : String) : List String :=
  (s.toList.splitOn '\n').map String.mk

/-- Python `str.splitlines()` for inputs using \n, \r\n or \r
terminators (the forms produced by the devices). -/
def splitLinesPy (s : String) : List String :=
  let rec go : List Char → List Char → List (List Char)
    | [], acc => [acc.reverse]
    | '\r' :: '\n' :: rest, acc => acc.reverse :: go rest []
    | '\r' :: rest, acc => acc.reverse :: go rest []
    | '\n' :: rest, acc => acc.reverse :: go rest []
    | c :: rest, acc => go rest (c :: acc)
  match s.toList with
  | [] => []
  | cs =>
    let parts := go cs []
    -- splitlines does not produce a trailing empty piece for a final terminator
    ((if parts.getLast? = some [] then parts.dropLast else parts).map String.mk)

/-- Python `str.split()` (split on whitespace runs, dropping empties). -/
def splitWsPy (s : String) : List String :=
  let rec go : List Char → List Char → List (List Char)
    | [], acc => if acc.isEmpty then [] else [acc.reverse]
    | c :: rest, acc =>
      if isJsonWs c then
        (if acc.isEmpty then go rest [] else acc.reverse :: go rest [])
      else go rest (c :: acc)
  (go s.toList []).map String.mk

/-! ### The malformed-JSON repair transform (z15j_handler.fix_z15j_json)

Source: `re.sub(r'(\x7d)(\x7b)', r'\1,\2', json_str)` - every occurrence
of the two-character pattern receives a comma between the braces; matches
cannot overlap because the two pattern characters differ. -/

/-- Character-list worker for the repair transform: at a match the scan
resumes after the replacement, as re.sub does. -/
def fixPairChars : List Char → List Char
  | [] => []
  | [c] => [c]
  | c1 :: c2 :: rest =>
    if c1 = '}' ∧ c2 = '{' then '}' :: ',' :: '{' :: fixPairChars rest
    else c1 :: fixPairChars (c2 :: rest)

/-- Z15jHandler._fix_z15j_json: insert a comma between adjacent brace
characters. -/
def fix_z15j_json (s : String) : String :=
  String.mk (fixPairChars s.toList)

/-- Whether a character list contains the adjacent pattern the repair
rewrites. -/
def hasBraceAdj : List Char → Bool
  | [] => false
  | [_] => false
  | c1 :: c2 :: rest => (c1 = '}' && c2 = '{') || hasBraceAdj (c2 :: rest)

/-! ### Socket command exchange -/

/-- Outcome of the raw TCP exchange with the miner: an error before or
during the read, or the full decoded payload read until EOF. -/
inductive NetOutcome where
  | timeout : NetOutcome
  | refused : NetOutcome
  | oserror (msg : String) : NetOutcome
  | data (payload : String) : NetOutcome

/-- SocketBasedHandler.send_socket_command.  After stripping trailing NUL
and percent padding the payload is parsed; on a JSON decode error the
handler calls `self.fix_malformed_json`, a method that is defined nowhere
in the repository, so Python raises AttributeError, which the inner
`except Exception` turns into the parse-error dictionary - the repair
never actually runs in this handler. -/
def sendSocketCommandBase (net : NetOutcome) : Json :=
  match net with
  | .timeout => .obj [("error", .str "Connection timed out")]
  | .refused => .obj [("error", .str "Connection refused")]
  | .oserror m => .obj [("error", .str ("Error: " ++ m))]
  | .data payload =>
    let response_str := rstripChar '%' (rstripChar (Char.ofNat 0) payload)
    match loads response_str with
    | some j => j
    | none =>
      .obj [("error", .str "JSON parsing error: AttributeError (no attribute fix_malformed_json)"),
            ("raw", .str payload)]

/-- Z15jHandler.send_socket_command (override): the repair transform is
applied unconditionally before parsing; a decode error of the repaired
string yields the invalid-JSON dictionary. -/
def z15jSendSocketCommand (net : NetOutcome) : Json :=
  match net with
  | .timeout => .obj [("error", .str "Connection timed out")]
  | .refused => .obj [("error", .str "Connection refused")]
  | .oserror m => .obj [("error", .str ("Error: " ++ m))]
  | .data payload =>
    let response_str := rstripChar '%' (rstripChar (Char.ofNat 0) payload)
    let fixed_json_str := fix_z15j_json response_str
    match loads fixed_json_str with
    | some j => j
    | none =>
      .obj [("error", .str "Invalid JSON response: decode error"),
            ("raw", .str payload)]

/-! ### Fan-status extraction -/

/-- SocketBasedHandler.get_device_type_from_stats: `Type` of the first
STATS object, None on any failure (the try swallows every exception). -/
def get_device_type_from_stats (stats : Json) : Json :=
  let r : Except String Json := do
    let c ← pyContains stats "STATS"
    if c then
      let sv ← pySubscriptStr stats "STATS"
      let l ← pyLen sv
      if l ≥ 1 then
        let first ← pyIndexNat sv 0
        pyDictGetD first "Type" .null
      else pure .null
    else pure .null
  match r with
  | .ok v => v
  | .error _ => .null

/-- Exception-tracking core of SocketBasedHandler.extract_fan_status. -/
def extract_fan_status_core (stats : Json) :
    Except String (Int × List (String × Json) × Option String) := do
  let hasErr ← pyContains stats "error"
  if hasErr then
    let ev ← pySubscriptStr stats "error"
    return (0, [], some (pyStrOfJson ev))
  let hasStats ← pyContains stats "STATS"
  if hasStats then
    let sv ← pySubscriptStr stats "STATS"
    let l ← pyLen sv
    if l ≥ 2 then
      let stats_data ← pyIndexNat sv 1
      let hasFanNum ← pyContains stats_data "fan_num"
      if hasFanNum then
        let fanNumJson ← pyDictGetD stats_data "fan_num" (.num 0)
        -- range(1, fan_num + 1) needs an integral bound
        let fan_num : Int ←
          match fanNumJson with
          | .num q => if q.den = 1 then .ok q.num
                      else .error "TypeError: float cannot be interpreted as an integer"
          | .bool b => .ok (if b then 1 else 0)
          | _ => .error "TypeError: cannot be interpreted as an integer"
        let idxs := List.range' 1 fan_num.toNat
        let scan := idxs.foldl
          (fun (acc : Int × List (String × Json)) i =>
            let fan_key := "fan" ++ toString i
            match objLookup (match stats_data with | .obj e => e | _ => []) fan_key with
            | some rpm =>
              ((if pyEqZero rpm then acc.1 + 1 else acc.1), acc.2 ++ [(fan_key, rpm)])
            | none => acc) (0, [])
        return (scan.1, scan.2, none)
      else
        return (0, [], some "No fan data found in stats response")
    else
      return (0, [], some "No fan data found in stats response")
  else
    return (0, [], some "No fan data found in stats response")

/-- SocketBasedHandler.extract_fan_status with its catch-all. -/
def extract_fan_status (stats : Json) : Int × List (String × Json) × Option String :=
  match extract_fan_status_core stats with
  | .ok r => r
  | .error e => (0, [], some ("Error parsing fan status: " ++ e))

/-- Exception-tracking core of Z15jHandler.extract_z15j_fan_status (note:
fans are re-read as Python ints and the working count is compared against
the `fan_num` of the object this function receives). -/
def extract_z15j_fan_status_core (stats : Json) :
    Except String (Int × List (String × Int) × Option String) := do
  let hasErr ← pyContains stats "error"
  if hasErr then
    let ev ← pySubscriptStr stats "error"
    return (0, [], some (pyStrOfJson ev))
  let hasFanNum ← pyContains stats "fan_num"
  if hasFanNum then
    let fanNumJson ← pyDictGetD stats "fan_num" (.num 0)
    let expected_fans ← pyToInt fanNumJson
    let step : (Int × List (String × Int)) → Nat →
        Except String (Int × List (String × Int)) := fun acc i => do
      let fan_key := "fan" ++ toString i
      let hasKey ← pyContains stats fan_key
      if hasKey then
        let rpmJson ← pySubscriptStr stats fan_key
        let rpm ← pyToInt rpmJson
        return ((if rpm > 0 then acc.1 + 1 else acc.1), acc.2 ++ [(fan_key, rpm)])
      else
        return acc
    let scan ← (List.range' 1 6).foldlM step (0, [])
    let working_fans := scan.1
    let failed_fans : Int :=
      if working_fans < expected_fans then expected_fans - working_fans else 0
    let failed_fans := if failed_fans < 0 then 0 else failed_fans
    return (failed_fans, scan.2, none)
  else
    return (0, [], some "No fan data found in Z15j stats response")

/-- Z15jHandler.extract_z15j_fan_status with its catch-all. -/
def extract_z15j_fan_status (stats : Json) : Int × List (String × Int) × Option String :=
  match extract_z15j_fan_status_core stats with
  | .ok r => r
  | .error e => (0, [], some ("Error parsing Z15j fan status: " ++ e))

/-- SocketBasedHandler.get_default_fan_message. -/
def get_default_fan_message (failed_fans : Int) : String :=
  if failed_fans > 0 then "No " ++ toString failed_fans ++ " Fan find" else ""

/-! ### Regular-expression fragments

The handlers use a handful of fixed regular expressions.  Each is
translated into a deterministic matcher; greediness never needs
backtracking in these patterns except for the one documented case in the
T21 log pattern, because every repeated class is followed by a character
it cannot match. -/

/-- One-or-more whitespace characters, maximal munch. -/
def matchWs1 (cs : List Char) : Option (List Char × List Char) :=
  let run := cs.takeWhile isJsonWs
  if run.isEmpty then none else some (run, cs.drop run.length)

/-- One-or-more decimal digits, maximal munch. -/
def matchDigits1 (cs : List Char) : Option (List Char × List Char) :=
  let run := cs.takeWhile Char.isDigit
  if run.isEmpty then none else some (run, cs.drop run.length)

/-- Exactly n decimal digits. -/
def matchDigitsN (n : Nat) (cs : List Char) : Option (List Char × List Char) :=
  let pre := cs.take n
  if pre.length = n && pre.all Char.isDigit then some (pre, cs.drop n) else none

/-- A literal character sequence. -/
def matchLit (lit : List Char) (cs : List Char) : Option (List Char × List Char) :=
  if startsWithChars lit cs then some (lit, cs.drop lit.length) else none

/-- One deterministic token of a pattern: a literal, a one-or-more
whitespace run, a one-or-more digit run, or an exact digit count. -/
inductive Tok where
  | lit (s : String) : Tok
  | ws1 : Tok
  | digits1 : Tok
  | digitsN (n : Nat) : Tok

/-- Match a token sequence at the head of the input, returning the
consumed text and the remainder. -/
def matchToks : List Tok → List Char → Option (List Char × List Char)
  | [], cs => some ([], cs)
  | t :: ts, cs =>
    let step :=
      match t with
      | .lit l => matchLit l.toList cs
      | .ws1 => matchWs1 cs
      | .digits1 => matchDigits1 cs
      | .digitsN n => matchDigitsN n cs
    match step with
    | some (seg, cs1) =>
      match matchToks ts cs1 with
      | some (rest, cs2) => some (seg ++ rest, cs2)
      | none => none
    | none => none

/-- Matcher for the Z15j fan-error message pattern
No\s+\d+\s+Fan\s+find,\s+check\s+again at the head of the input,
returning the matched text. -/
def matchFanMsgAt (cs : List Char) : Option (List Char) :=
  (matchToks [.lit "No", .ws1, .digits1, .ws1, .lit "Fan", .ws1, .lit "find,",
              .ws1, .lit "check", .ws1, .lit "again"] cs).map (·.1)

/-- Leftmost occurrence search for a head matcher. -/
def searchChars (m : List Char → Option (List Char)) : List Char → Option (List Char)
  | [] => m []
  | c :: rest =>
    match m (c :: rest) with
    | some r => some r
    | none => searchChars m rest

/-- re.search for the fan-error message (the optional cgminer prefix of
the source pattern only widens the whole-match span; the captured group
is the fan message in either case). -/
def searchFanMsg (line : String) : Option String :=
  (searchChars matchFanMsgAt line.toList).map String.mk

/-! ### Z15j handler (handlers/z15j_handler.py) -/

/-- HTTP exchange outcome for the CGI endpoints: either a transport-level
exception or a response with a status code and a body. -/
inductive HttpOutcome where
  | exc (msg : String) : HttpOutcome
  | response (code : Int) (body : String) : HttpOutcome

/-- The dictionary built by Z15jHandler._parse_z15j_http_log on the paths
that return one. -/
structure Z15jHttpLogRes where
  status : String
  source : String
  message : String
  raw_log : Json

/-- Z15jHandler._parse_z15j_http_log.  `Except.error` is an exception
escaping the function (only JSONDecodeError is caught inside); `.ok none`
is the fall-through path that returns Python None: valid JSON without a
"log" key reaches neither return statement. -/
def parse_z15j_http_log (log_content : String) : Except String (Option Z15jHttpLogRes) :=
  match loads log_content with
  | some log_data => do
    let hasLog ← pyContains log_data "log"
    if hasLog then
      let v ← pySubscriptStr log_data "log"
      if pyTruthy v then
        match v with
        | .str s =>
          return some { status := "success", source := "Z15j-http",
                        message := pyStrip s, raw_log := v }
        | _ => .error "AttributeError: object has no attribute strip"
      else
        return some { status := "success", source := "Z15j-http",
                      message := "No log message", raw_log := v }
    else
      return none
  | none =>
    let lines := splitOnNewline (pyStrip log_content)
    match lines.reverse.find?
        (fun line => containsSub (pyLower line) "no" && containsSub (pyLower line) "fan find") with
    | some line =>
      let error_message := (searchFanMsg line).getD line
      .ok (some { status := "error", source := "Z15j-http-text",
                  message := error_message, raw_log := .str log_content })
    | none =>
      match lines.reverse.find?
          (fun line => containsSub (pyLower line) "kernel" || containsSub (pyLower line) "error") with
      | some line =>
        .ok (some { status := "error", source := "Z15j-http-text",
                    message := line, raw_log := .str log_content })
      | none =>
        let last_line := (lines.getLast?).getD ""
        .ok (some { status := "success", source := "Z15j-http-text",
                    message := last_line, raw_log := .str log_content })

/-- Result dictionary of Z15jHandler.fetch_logs; optional fields model
keys that only some return paths set. -/
structure Z15jResult where
  status : String
  message : String
  device_type : Json
  device_type_source : Option String
  error_type : Option String
  fan_data : Option (List (String × Int))
  ip : Option String
  source : Option String
  raw_log : Option Json

/-- Z15jHandler._fetch_logs_via_http: HTTP fallback of the socket path.
Both an exception escaping _parse_z15j_http_log and the TypeError raised
by `log_data["ip"] = ip` on a None return land in the catch-all, which
reports a connection error. -/
def z15j_fetch_logs_via_http (ip : String) (http : HttpOutcome)
    (ignore_success : Bool) : Z15jResult :=
  match http with
  | .exc m =>
    { status := "error", message := "HTTP Connection Error: " ++ m,
      device_type := .str "Z15j", device_type_source := some "http_fallback",
      error_type := some "connection_error", fan_data := none, ip := none,
      source := none, raw_log := none }
  | .response code body =>
    if code = 200 then
      match parse_z15j_http_log body with
      | .error e =>
        { status := "error", message := "HTTP Connection Error: " ++ e,
          device_type := .str "Z15j", device_type_source := some "http_fallback",
          error_type := some "connection_error", fan_data := none, ip := none,
          source := none, raw_log := none }
      | .ok none =>
        { status := "error",
          message := "HTTP Connection Error: TypeError (NoneType item assignment)",
          device_type := .str "Z15j", device_type_source := some "http_fallback",
          error_type := some "connection_error", fan_data := none, ip := none,
          source := none, raw_log := none }
      | .ok (some ld) =>
        let base : Z15jResult :=
          { status := ld.status, message := ld.message, device_type := .str "Z15j",
            device_type_source := some "http_fallback", error_type := none,
            fan_data := none, ip := some ip, source := some ld.source,
            raw_log := some ld.raw_log }
        if ignore_success && (ld.message = "" || containsSub (pyLower ld.status) "success") then
          { base with status := "ok", message := "" }
        else base
    else
      { status := "error", message := "HTTP Error: " ++ toString code,
        device_type := .str "Z15j", device_type_source := some "http_fallback",
        error_type := some "http_error", fan_data := none, ip := none,
        source := none, raw_log := none }

/-- The socket branch of Z15jHandler.fetch_logs: `.ok (some r)` is a
direct return, `.ok none` is the else branch (invalid socket response)
and `.error` is an exception; the caller sends the last two to the HTTP
fallback.  Note the comparison reads `fan_num` with `stats.get` on the
top-level response object, not on the STATS[1] fan object that
extract_z15j_fan_status consumed, and discards the failed-fan count that
extraction returned. -/
def z15jSocketBranch (stats : Json) : Except String (Option Z15jResult) := do
  if pyTruthy stats then
    let hasStats ← pyContains stats "STATS"
    if hasStats then
      let sv ← pySubscriptStr stats "STATS"
      let l ← pyLen sv
      if l > 1 then
        let fan_stats ← pyIndexNat sv 1
        let dtRaw := get_device_type_from_stats stats
        let device_type := if pyTruthy dtRaw then dtRaw else .str "Z15j"
        let device_type_source := if pyTruthy dtRaw then "api" else "registry"
        let (_failed, fan_data, errMsg) := extract_z15j_fan_status fan_stats
        match errMsg with
        | some e =>
          return some { status := "error", message := "Error fetching fan status: " ++ e,
                        device_type := device_type,
                        device_type_source := some device_type_source,
                        error_type := some "device_error", fan_data := none,
                        ip := none, source := none, raw_log := none }
        | none =>
          let working_fans_count : Int := (fan_data.filter (fun p => 0 < p.2)).length
          let fanNumTop ← pyDictGetD stats "fan_num" (.num 0)
          let expected_fans ← pyToInt fanNumTop
          if working_fans_count ≥ expected_fans then
            return some { status := "ok", message := "", device_type := device_type,
                          device_type_source := some device_type_source,
                          error_type := none, fan_data := some fan_data,
                          ip := none, source := none, raw_log := none }
          else
            let failed_fans := expected_fans - working_fans_count
            return some { status := "error",
                          message := "No " ++ toString failed_fans ++ " Fan find, check again",
                          device_type := device_type,
                          device_type_source := some device_type_source,
                          error_type := some "device_error", fan_data := some fan_data,
                          ip := none, source := none, raw_log := none }
      else return none
    else return none
  else return none

/-- Z15jHandler.fetch_logs: socket path first; its else branch and any
exception fall back to the HTTP path. -/
def z15jFetchLogs (ip : String) (sock : NetOutcome) (http : HttpOutcome)
    (ignore_success : Bool := true) : Z15jResult :=
  let stats := z15jSendSocketCommand sock
  match z15jSocketBranch stats with
  | .ok (some r) => r
  | .ok none => z15j_fetch_logs_via_http ip http ignore_success
  | .error _ => z15j_fetch_logs_via_http ip http ignore_success

/-! ### S21+ and S19j Pro handlers (socket based, identical bodies) -/

/-- Result dictionary of the socket-based fan fetchers. -/
structure SockFetchResult where
  ip : String
  status : String
  device_type : String
  device_type_source : String
  miner_type : Option Json
  message : Option String
  error_type : Option String
  ignore_success : Option Bool
  fan_data : Option (List (String × Json))

/-- Shared body of S21Handler.fetch_logs and S19jProHandler.fetch_logs
(the two methods are textual duplicates up to the device-type constant):
send stats, raise on an error dict, read the reported type, extract fan
status, then report missing fans or success. -/
def socketFanFetch (device_type : String) (ip : String) (net : NetOutcome) :
    SockFetchResult :=
  let base : SockFetchResult :=
    { ip := ip, status := "success", device_type := device_type,
      device_type_source := "registry", miner_type := none, message := none,
      error_type := none, ignore_success := none, fan_data := none }
  let stats := sendSocketCommandBase net
  let run : Except String SockFetchResult := do
    let hasErr ← pyContains stats "error"
    if hasErr then
      let ev ← pySubscriptStr stats "error"
      .error (pyStrOfJson ev)
    else
      let minerTypeJson := get_device_type_from_stats stats
      let withType :=
        if pyTruthy minerTypeJson then { base with miner_type := some minerTypeJson } else base
      let (failed_fans, fan_data, error_msg) := extract_fan_status stats
      match error_msg with
      | some e =>
        return { withType with
                 status := "error", message := some e,
                 error_type := some "fan_data_error" }
      | none =>
        if failed_fans > 0 then
          return { withType with
                   message := some (get_default_fan_message failed_fans),
                   fan_data := some fan_data }
        else
          return { withType with
                   message := some "", ignore_success := some true,
                   fan_data := some fan_data }
  match run with
  | .ok r => r
  | .error e =>
    { base with
      status := "error", message := some ("Error fetching fan status: " ++ e),
      error_type := some "unknown_error" }

/-- S21Handler.fetch_logs. -/
def s21FetchLogs (ip : String) (net : NetOutcome) : SockFetchResult :=
  socketFanFetch "S21+" ip net

/-- S19jProHandler.fetch_logs. -/
def s19jProFetchLogs (ip : String) (net : NetOutcome) : SockFetchResult :=
  socketFanFetch "S19j Pro" ip net

/-! ### Z15 handler (HTTP kernel-log CGI) -/

/-- Result dictionary of Z15Handler.fetch_logs / parse_logs. -/
structure Z15Result where
  ip : String
  status : String
  source : Option String
  message : String
  raw_log : Option Json
  error_code : Option Int

/-- Z15Handler.parse_logs.  Only JSONDecodeError is caught; valid JSON
without a "log" key falls off the end of the function and returns None
(`.ok none`), and a truthy non-string "log" value raises out of the
method (`.error`). -/
def z15_parse_logs (log_content : String) : Except String (Option Z15Result) :=
  match loads log_content with
  | some log_data => do
    let hasLog ← pyContains log_data "log"
    if hasLog then
      let v ← pySubscriptStr log_data "log"
      if pyTruthy v then
        match v with
        | .str s =>
          return some { ip := "", status := "success", source := some "Z15",
                        message := pyStrip s, raw_log := some v, error_code := none }
        | _ => .error "AttributeError: object has no attribute strip"
      else
        return some { ip := "", status := "success", source := some "Z15",
                      message := "No log message", raw_log := some v, error_code := none }
    else
      return none
  | none =>
    let lines := splitOnNewline (pyStrip log_content)
    let last_line := (lines.getLast?).getD ""
    .ok (some { ip := "", status := "success", source := some "Z15-text",
                message := last_line, raw_log := some (.str last_line),
                error_code := none })

/-- Z15Handler.fetch_logs: only requests.RequestException is caught, so
parse_logs exceptions (and its None return) are passed through to the
caller. -/
def z15FetchLogs (ip : String) (http : HttpOutcome) : Except String (Option Z15Result) :=
  match http with
  | .exc m =>
    .ok (some { ip := ip, status := "error", source := none,
                message := "Request exception for Z15 logs: " ++ m,
                raw_log := none, error_code := none })
  | .response code body =>
    if code = 200 then z15_parse_logs body
    else
      .ok (some { ip := ip, status := "error", source := none,
                  message := "Failed to fetch Z15 logs. Status code: " ++ toString code,
                  raw_log := none, error_code := some code })

/-! ### DG1+ handler (HTTP hlog endpoint) -/

/-- Result dictionary of DG1Handler.fetch_logs / parse_logs. -/
structure Dg1Result where
  ip : String
  status : String
  error_code : Option Int
  message : String
  device_type : Option String
  device_type_source : Option String
  date : Option String
  time : Option String
  raw_log : Option String
  logs : Option (List String)

/-- Head matcher for the DG1/S21 timestamp pattern
(\d\x7b4\x7d-\d\x7b2\x7d-\d\x7b2\x7d)\s+(\d\x7b2\x7d:\d\x7b2\x7d:\d\x7b2\x7d)\s+(.*),
returning date, time and trailing message. -/
def matchTsAt (cs : List Char) : Option (String × String × String) := do
  let (date, r1) ← matchToks [.digitsN 4, .lit "-", .digitsN 2, .lit "-", .digitsN 2] cs
  let (_, r2) ← matchWs1 r1
  let (time, r3) ← matchToks [.digitsN 2, .lit ":", .digitsN 2, .lit ":", .digitsN 2] r2
  let (_, r4) ← matchWs1 r3
  return (String.mk date, String.mk time, String.mk r4)

/-- Leftmost-position search variant returning the structured groups. -/
def searchTs (line : String) : Option (String × String × String) :=
  let rec go : List Char → Option (String × String × String)
    | [] => matchTsAt []
    | c :: rest =>
      match matchTsAt (c :: rest) with
      | some r => some r
      | none => go rest
  go line.toList

/-- Last n elements of a list (Python xs[-n:]). -/
def takeLastN (n : Nat) (xs : List α) : List α :=
  xs.drop (xs.length - n)

/-- DG1Handler.parse_logs. -/
def dg1_parse_logs (log_content : String) (ip : String) : Dg1Result :=
  let log_lines := splitOnNewline (pyStrip log_content)
  if log_lines.isEmpty then
    { ip := ip, status := "error", error_code := none,
      message := "No log content found", device_type := none,
      device_type_source := none, date := none, time := none,
      raw_log := none, logs := none }
  else
    let last_log_line := (log_lines.getLast?).getD ""
    let (date_part, time_part, message) :=
      match searchTs last_log_line with
      | some (d, t, m) => (d, t, m)
      | none => ("", "", last_log_line)
    { ip := ip, status := "success", error_code := none, message := message,
      device_type := some "DG1+", device_type_source := some "detected",
      date := some date_part, time := some time_part,
      raw_log := some last_log_line,
      logs := some (if log_lines.length > 10 then takeLastN 10 log_lines else log_lines) }

/-- DG1Handler.fetch_logs. -/
def dg1FetchLogs (ip : String) (http : HttpOutcome) : Dg1Result :=
  match http with
  | .exc m =>
    { ip := ip, status := "error", error_code := none,
      message := "Request exception for DG1+ logs: " ++ m, device_type := none,
      device_type_source := none, date := none, time := none, raw_log := none,
      logs := none }
  | .response code body =>
    if code = 200 then dg1_parse_logs body ip
    else
      { ip := ip, status := "error", error_code := some code,
        message := "Failed to fetch DG1+ logs. Status code: " ++ toString code,
        device_type := none, device_type_source := none, date := none,
        time := none, raw_log := none, logs := none }

/-! ### T21 handler (WebSocket log streaming) -/

/-- One parsed T21 log line. -/
structure T21LogEntry where
  timestamp : String
  level : String
  message : String

/-- Word characters of \w (ASCII fragment, sufficient for the device
logs). -/
def isWordChar (c : Char) : Bool :=
  c.isAlphanum || c = '_'

/-- Head matcher for the T21 log pattern
\[(\d\x7b4\x7d/\d\x7b2\x7d/\d\x7b2\x7d\s+\d\x7b2\x7d:\d\x7b2\x7d:\d\x7b2\x7d)\]\s+(\w+):\s+(.+).
The only backtracking the pattern can need is at the final :\s+(.+): when
everything after the whitespace run is empty, the run must give up its
last character to the dot group. -/
def matchT21Line (line : String) : Option T21LogEntry := do
  let cs := line.toList
  let (_, r1) ← matchLit ['['] cs
  let (ts, r2) ← matchToks [.digitsN 4, .lit "/", .digitsN 2, .lit "/", .digitsN 2,
                            .ws1, .digitsN 2, .lit ":", .digitsN 2, .lit ":", .digitsN 2] r1
  let (_, r3) ← matchToks [.lit "]", .ws1] r2
  let lvl := r3.takeWhile isWordChar
  if lvl.isEmpty then none
  else
    let r4 := r3.drop lvl.length
    let (_, r5) ← matchLit [':'] r4
    let wsRun := r5.takeWhile isJsonWs
    let rest := r5.drop wsRun.length
    if wsRun.isEmpty then none
    else
      let msg ←
        if ¬ rest.isEmpty then some rest
        else if wsRun.length ≥ 2 then some [(wsRun.getLast?).getD ' ']
        else none
      return { timestamp := String.mk ts, level := String.mk lvl,
               message := String.mk msg }

/-- Stable insertion preserving existing order among equal keys. -/
def insertStable (le : α → α → Bool) (x : α) : List α → List α
  | [] => [x]
  | y :: ys => if le y x then y :: insertStable le x ys else x :: y :: ys

/-- Stable ascending sort (models Python list.sort with a key). -/
def sortStable (le : α → α → Bool) (xs : List α) : List α :=
  xs.foldl (fun acc x => insertStable le x acc) []

/-- Result dictionary of T21Handler.fetch_logs. -/
structure T21Result where
  ip : String
  status : String
  device_type : Option String
  device_type_source : Option String
  message : Option String
  error_type : Option String
  time : Option String
  date : Option String
  level : Option String
  logs : Option (List T21LogEntry)

/-- T21Handler.fallback_get_logs: the honest connection-error result. -/
def t21_fallback_get_logs (ip : String) : T21Result :=
  { ip := ip, status := "error", device_type := some "T21",
    device_type_source := some "registry",
    message := some "Could not connect to logs WebSocket endpoint",
    error_type := some "connection_error", time := none, date := none,
    level := none, logs := none }

/-- Environment of one T21 WebSocket fetch: which client libraries are
importable and what the network delivered. -/
structure T21Env where
  asyncioAvailable : Bool
  clientAvailable : Bool
  wsMessage : Option String
  clientConnects : Bool
  clientMessages : List String

/-- T21Handler.fetch_logs_via_websocket.  The asyncio branch parses the
lines of the single received message and reports the most recent entry by
timestamp; the legacy websocket-client branch can never produce a success
result: with no parsed messages it falls back, and with parsed messages
the filter referencing the unbound name `today` raises NameError inside
the try block, which also falls back. -/
def t21_fetch_logs_via_websocket (ip : String) (env : T21Env) : T21Result :=
  let base : T21Result :=
    { ip := ip, status := "success", device_type := some "T21",
      device_type_source := some "registry", message := none, error_type := none,
      time := none, date := none, level := none, logs := none }
  if env.asyncioAvailable then
    let raw_lines :=
      match env.wsMessage with
      | some m => splitLinesPy m
      | none => []
    let valid_logs := raw_lines.filterMap (fun line =>
      if (pyStrip line).startsWith "[" && containsSub line "]" then
        matchT21Line line
      else none)
    if valid_logs.isEmpty then t21_fallback_get_logs ip
    else
      let sorted := sortStable (fun a b => a.timestamp ≤ b.timestamp) valid_logs
      let last_log := (sorted.getLast?).getD { timestamp := "", level := "", message := "" }
      let parts := splitWsPy last_log.timestamp
      { base with
        message := some last_log.message,
        time := some ((parts[1]?).getD ""),
        date := some ((parts[0]?).getD ""),
        level := some last_log.level,
        logs := some (if sorted.length > 10 then takeLastN 10 sorted else sorted) }
  else if env.clientAvailable then
    if ¬ env.clientConnects then t21_fallback_get_logs ip
    else
      let log_messages := env.clientMessages.filterMap matchT21Line
      if ¬ log_messages.isEmpty then
        -- the today-filter raises NameError (the name is never bound in
        -- this scope); the surrounding except returns the fallback
        t21_fallback_get_logs ip
      else t21_fallback_get_logs ip
  else t21_fallback_get_logs ip

/-- T21Handler.fetch_logs: WebSocket fetch, then the type fields are
overwritten with the registry values. -/
def t21FetchLogs (ip : String) (env : T21Env) : T21Result :=
  let r := t21_fetch_logs_via_websocket ip env
  { r with device_type := some "T21", device_type_source := some "registry" }

/-! ### Device registry (device_registry.py) -/

/-- Head matcher for the model-extraction pattern
Antminer\s+([A-Z]\d+[\+]*), returning the captured group. -/
def matchAntminerAt (cs : List Char) : Option (List Char) := do
  let (_, r1) ← matchLit "Antminer".toList cs
  let (_, r2) ← matchWs1 r1
  match r2 with
  | c :: r3 =>
    if 'A' ≤ c && c ≤ 'Z' then do
      let (ds, r4) ← matchDigits1 r3
      let pluses := r4.takeWhile (· = '+')
      return c :: ds ++ pluses
    else none
  | [] => none

/-- re.search for the Antminer model pattern. -/
def searchAntminerModel (s : String) : Option String :=
  (searchChars matchAntminerAt s.toList).map String.mk

/-- DeviceRegistry.normalize_device_type: specific substring checks in
order, then the Antminer model-number extraction, then the raw string. -/
def normalize_device_type (device_type : String) : String :=
  if device_type = "unknown" then "unknown"
  else if containsSub device_type "Z15j" then "Z15j"
  else if containsSub device_type "Z15" then "Z15"
  else if containsSub device_type "T21" then "T21"
  else if containsSub device_type "S21 Pro" || containsSub device_type "S21Pro" then "S21 Pro"
  else if containsSub device_type "S21+" then "S21+"
  else
    match searchAntminerModel device_type with
    | some m => m
    | none => device_type

/-- Remove the entry with the given key from an association list (the
dict pop in reorder_detectors), returning its value and the remaining
entries. -/
def popKey (t : String) : List (String × δ) → Option (δ × List (String × δ))
  | [] => none
  | (k, v) :: rest =>
    if k = t then some (v, rest)
    else (popKey t rest).map (fun p => (p.1, (k, v) :: p.2))

/-- The loop of DeviceRegistry.reorder_detectors: walk the preferred
names, moving each registered one (in order) to the rebuilt front table
and removing it from the pool of remaining entries. -/
def reorderGo : List String → List (String × δ) → List (String × δ) × List (String × δ)
  | [], remaining => ([], remaining)
  | t :: ts, remaining =>
    match popKey t remaining with
    | some (v, rest) =>
      let p := reorderGo ts rest
      ((t, v) :: p.1, p.2)
    | none => reorderGo ts remaining

/-- DeviceRegistry.reorder_detectors: preferred-first rebuild of the
(insertion-ordered) detector table; a falsy preferred list is a no-op. -/
def reorder_detectors (preferred : List String) (regs : List (String × δ)) :
    List (String × δ) :=
  if preferred.isEmpty then regs
  else (reorderGo preferred regs).1 ++ (reorderGo preferred regs).2

/-! ### Device manager (device_manager.py) -/

/-- Outcome of a detector probe: a boolean answer or a raised
exception. -/
inductive DetOutcome where
  | ok (b : Bool) : DetOutcome
  | raise (msg : String) : DetOutcome

/-- A registered detector, keyed by the probed address. -/
abbrev Detector := String → DetOutcome

/-- String-or-None values of the small dictionaries that detection and
the scan loop exchange. -/
inductive PVal where
  | none : PVal
  | str (s : String) : PVal
deriving DecidableEq

/-- First-occurrence association-list lookup (Python dicts have unique
keys, which every constructor below maintains). -/
def getKey? : List (String × PVal) → String → Option PVal
  | [], _ => none
  | p :: rest, k => if p.1 = k then some p.2 else getKey? rest k

/-- Python dict.get(k, dflt). -/
def pyGetD (d : List (String × PVal)) (k : String) (dflt : PVal) : PVal :=
  (getKey? d k).getD dflt

/-- Python d[k] = v: rewrite in place when the key exists, append
otherwise. -/
def setKey (k : String) (v : PVal) : List (String × PVal) → List (String × PVal)
  | [] => [(k, v)]
  | (k0, v0) :: rest => if k0 = k then (k, v) :: rest else (k0, v0) :: setKey k v rest

/-- DeviceManager.detect_device_type: first detector answering true wins
(source "registry"); detector exceptions are swallowed per type; an
exhausted table yields the unknown result with a None source. -/
def detect_device_type (detectors : List (String × Detector)) (ip : String) :
    List (String × PVal) :=
  match detectors with
  | [] => [("device_type", .str "unknown"), ("device_type_source", .none)]
  | (device_type, f) :: rest =>
    match f ip with
    | .ok true => [("device_type", .str device_type), ("device_type_source", .str "registry")]
    | _ => detect_device_type rest ip

/-- The per-IP record assembly inside SiteScanner.scan_subsection: the
fetch result dictionary is augmented with the detected type, with
`device_info.get("source")` - a key detection never sets, its provenance
lives under "device_type_source" - and with the address. -/
def storeDeviceRecord (device_info result : List (String × PVal)) (ip : String) :
    List (String × PVal) :=
  let device_type := pyGetD device_info "device_type" (.str "unknown")
  let r1 := setKey "device_type" device_type result
  let r2 := setKey "device_type_source" (pyGetD device_info "source" .none) r1
  setKey "ip" (.str ip) r2

/-! ### IP range expansion (SiteScanner.parse_ip_range)

The CIDR branch delegates to Python's ipaddress module; the model below
covers its IPv4 dotted-quad grammar (strict octets, host bits must be
zero) and the hosts() enumeration.  IPv6 forms and dotted netmask
suffixes, which the scanner never receives, are outside the model and
parse to none. -/

/-- Decimal digit character. -/
def decChar (d : Nat) : Char :=
  Char.ofNat ('0'.toNat + d)

/-- Decimal rendering of a Python int (explicit digits up to three
places, which covers every octet; str() of larger values falls back to
the standard decimal rendering). -/
def natToChars (n : Nat) : List Char :=
  if n < 10 then [decChar n]
  else if n < 100 then [decChar (n / 10), decChar (n % 10)]
  else if n < 1000 then [decChar (n / 100), decChar (n / 10 % 10), decChar (n % 10)]
  else (toString n).toList

/-- Decimal rendering of a possibly negative Python int. -/
def intToChars (i : Int) : List Char :=
  if i < 0 then '-' :: natToChars i.natAbs else natToChars i.toNat

/-- Nonempty all-digit test (str.isdigit for ASCII inputs). -/
def isAllDigits (cs : List Char) : Bool :=
  ¬ cs.isEmpty && cs.all Char.isDigit

/-- Python int(str): optional surrounding whitespace and sign around a
digit run. -/
def pyIntChars? (cs : List Char) : Option Int :=
  let cs := ((cs.dropWhile isJsonWs).reverse.dropWhile isJsonWs).reverse
  let (sign, ds) : Int × List Char :=
    match cs with
    | '-' :: rest => (-1, rest)
    | '+' :: rest => (1, rest)
    | rest => (1, rest)
  (digitsOnlyToNat? ds).map (fun n => sign * n)

/-- One dotted-quad octet as the ipaddress module accepts it: one to
three digits, no leading zero, at most 255. -/
def parseOctet? (cs : List Char) : Option Nat :=
  if cs.isEmpty || cs.length > 3 then none
  else if ¬ cs.all Char.isDigit then none
  else if cs.length > 1 && cs.headD '0' = '0' then none
  else
    let n := digitsToNat cs
    if n ≤ 255 then some n else none

/-- The 32-bit number of a dotted quad. -/
def ipOfOctets (a b c d : Nat) : Nat :=
  ((a * 256 + b) * 256 + c) * 256 + d

/-- IPv4 address text to its 32-bit number. -/
def parseIPv4Addr? (cs : List Char) : Option Nat :=
  match cs.splitOn '.' with
  | [a, b, c, d] => do
    let a ← parseOctet? a
    let b ← parseOctet? b
    let c ← parseOctet? c
    let d ← parseOctet? d
    return ipOfOctets a b c d
  | _ => none

/-- Decimal prefix length 0..32, no leading zero. -/
def parsePrefixLen? (cs : List Char) : Option Nat :=
  if cs.isEmpty then none
  else if ¬ cs.all Char.isDigit then none
  else if cs.length > 1 && cs.headD '0' = '0' then none
  else
    let n := digitsToNat cs
    if n ≤ 32 then some n else none

/-- ipaddress.ip_network for IPv4 text: an address with an optional
prefix, rejecting (ValueError) networks with host bits set. -/
def ipNetworkV4? (cs : List Char) : Option (Nat × Nat) :=
  match cs.splitOn '/' with
  | [addr] => (parseIPv4Addr? addr).map (fun a => (a, 32))
  | [addr, pfx] => do
    let a ← parseIPv4Addr? addr
    let p ← parsePrefixLen? pfx
    if a % 2 ^ (32 - p) = 0 then some (a, p) else none
  | _ => none

/-- network.hosts(): all usable host addresses; /31 and /32 networks
enumerate every address. -/
def hostsList (net p : Nat) : List Nat :=
  if p ≤ 30 then (List.range (2 ^ (32 - p) - 2)).map (fun i => net + 1 + i)
  else if p = 31 then [net, net + 1]
  else [net]

/-- str() of an ipaddress address object: dotted quad. -/
def formatIPv4 (n : Nat) : String :=
  String.mk (natToChars (n / 2 ^ 24 % 256) ++ '.' :: natToChars (n / 2 ^ 16 % 256) ++
             '.' :: natToChars (n / 2 ^ 8 % 256) ++ '.' :: natToChars (n % 256))

/-- SiteScanner.parse_ip_range: CIDR, dash-range or single address; every
failure is swallowed into an empty list. -/
def parse_ip_range (ip_range : String) : List String :=
  let cs := ip_range.toList
  if cs.contains '/' then
    match ipNetworkV4? cs with
    | some (net, p) => (hostsList net p).map formatIPv4
    | none => []
  else if cs.contains '-' then
    match cs.splitOn '-' with
    | part0 :: part1 :: _ =>
      let base_ip := ((part0.dropWhile isJsonWs).reverse.dropWhile isJsonWs).reverse
      let ip_components := base_ip.splitOn '.'
      if ip_components.length ≠ 4 then []
      else
        let range_end := ((part1.dropWhile isJsonWs).reverse.dropWhile isJsonWs).reverse
        if isAllDigits range_end then
          match pyIntChars? ((ip_components[3]?).getD []) with
          | some start_octet =>
            let end_octet : Int := digitsToNat range_end
            let count := (end_octet + 1 - start_octet).toNat
            (List.range count).map (fun i =>
              String.mk ((ip_components[0]?).getD [] ++ '.' :: (ip_components[1]?).getD [] ++
                         '.' :: (ip_components[2]?).getD [] ++ '.' :: intToChars (start_octet + i)))
          | none => []
        else []
    | _ => []
  else
    if (parseIPv4Addr? cs).isSome then [ip_range] else []

/-! ### Issue analysis (SiteScanner.analyze_device_issues) -/

/-- One entry of site_config["models"]; absent keys take the analyzer's
defaults.  Numeric JSON is carried as rationals (the Python comparison
against `expected * 0.6` uses binary floats; no claim depends on the
boundary). -/
structure ModelSpec where
  hashrate : Option ℚ
  hb : Option Int
  fans : Option Int

/-- The telemetry-dictionary fields the analyzer and the aggregator read:
the stored type, hashboard status values, fan speed values, the reported
hashrate and the free-text message.  A `none` field is an absent key. -/
structure DeviceData where
  device_type : Option String
  hashboards : Option (List (Option String))
  fans : Option (List (Option ℚ))
  hashrate : Option ℚ
  message : Option String

/-- The issues dictionary the analyzer builds. -/
structure Issues where
  hashboards : Option String
  fans : Option String
  hashrate : Option String
  message : Option String

/-- Python truthiness of the issues dictionary. -/
def issuesNonempty (i : Issues) : Bool :=
  i.hashboards.isSome || i.fans.isSome || i.hashrate.isSome || i.message.isSome

/-- First-occurrence lookup in a generic association list. -/
def dictGet? : List (String × α) → String → Option α
  | [], _ => none
  | p :: rest, k => if p.1 = k then some p.2 else dictGet? rest k

/-- Display rendering of a JSON number in a message. -/
def ratToDisplay (q : ℚ) : String :=
  if q.den = 1 then toString q.num else "<float>"

/-- SiteScanner.analyze_device_issues: independent additive rules for
hashboards, fans, hashrate and the carried-through message, each against
the model configuration looked up under the raw stored device type. -/
def analyze_device_issues (models : List (String × ModelSpec))
    (device_data : DeviceData) : Issues :=
  let device_type := device_data.device_type.getD "unknown"
  let mc := (dictGet? models device_type).getD
    { hashrate := none, hb := none, fans := none }
  let hashboardsIssue :=
    match device_data.hashboards with
    | some hbs =>
      let expected_hashboards : Int := mc.hb.getD 3
      let active_hashboards : Int := (hbs.filter (fun st => st = some "active")).length
      if active_hashboards < expected_hashboards then
        some ("Missing " ++ toString (expected_hashboards - active_hashboards) ++ " Hashboard(s)")
      else none
    | none => none
  let fansIssue :=
    match device_data.fans with
    | some fs =>
      let expected_fans : Int := mc.fans.getD 2
      let active_fans : Int := (fs.filter (fun sp => sp.getD 0 > 0)).length
      if active_fans < expected_fans then
        some (if active_fans = 0 then "No fans"
              else "Missing " ++ toString (expected_fans - active_fans) ++ " Fan(s)")
      else none
    | none => none
  let hashrateIssue :=
    match device_data.hashrate with
    | some actual_hashrate =>
      let expected_hashrate : ℚ := mc.hashrate.getD 0
      if actual_hashrate > 0 ∧ actual_hashrate < expected_hashrate * (3 / 5 : ℚ) then
        some ("Low hashrate: " ++ ratToDisplay actual_hashrate ++
              " (Expected: " ++ ratToDisplay expected_hashrate ++ ")")
      else none
    | none => none
  let messageIssue :=
    match device_data.message with
    | some m => if m ≠ "" then some m else none
    | none => none
  { hashboards := hashboardsIssue, fans := fansIssue,
    hashrate := hashrateIssue, message := messageIssue }

/-! ### Subsection summary (SiteScanner.generate_subsection_summary) -/

/-- Python d[k] = v on a generic association list: rewrite in place or
append. -/
def dictSet (k : String) (v : α) : List (String × α) → List (String × α)
  | [] => [(k, v)]
  | (k0, v0) :: rest => if k0 = k then (k, v) :: rest else (k0, v0) :: dictSet k v rest

/-- Append one element to the list stored under a key of a dict of
lists, creating the entry on first use. -/
def dictAppend (k : String) (v : α) : List (String × List α) → List (String × List α)
  | [] => [(k, [v])]
  | (k0, vs) :: rest =>
    if k0 = k then (k0, vs ++ [v]) :: rest else (k0, vs) :: dictAppend k v rest

/-- One comparison record of the summary. -/
structure ComparisonEntry where
  expected : Int
  actual : Int
  working : Int
  with_issues : Int
  offline : Int

/-- The subsection fields generate_subsection_summary reads: the
expected-miner roster entries (model, quantity) and the stored device
records keyed by address. -/
structure SubsectionInput where
  expected_miners : List (String × Int)
  devices : List (String × DeviceData)

/-- The summary dictionary. -/
structure SubsectionSummary where
  working : List (String × Int)
  issues : List (String × List (String × Issues))
  comparison : List (String × ComparisonEntry)

/-- SiteScanner.generate_subsection_summary: group the stored records by
normalized type, split off the ones whose analysis found issues, then
compare against the declared roster.  The offline figure is the plain
difference `expected - actual`, with no clamping at zero. -/
def generate_subsection_summary (models : List (String × ModelSpec))
    (sub : SubsectionInput) : SubsectionSummary :=
  let expected_miners := sub.expected_miners.foldl (fun d p => dictSet p.1 p.2 d) []
  let grouped := sub.devices.foldl
    (fun (acc : List (String × List String) × List (String × List (String × Issues))) dev =>
      let device_type := normalize_device_type (dev.2.device_type.getD "unknown")
      let byType := dictAppend device_type dev.1 acc.1
      let issues := analyze_device_issues models dev.2
      let withIssues :=
        if issuesNonempty issues then dictAppend device_type (dev.1, issues) acc.2
        else acc.2
      (byType, withIssues)) ([], [])
  let devices_by_type := grouped.1
  let devices_with_issues := grouped.2
  let workingList := devices_by_type.map (fun p =>
    let issues_count : Int := ((dictGet? devices_with_issues p.1).getD []).length
    (p.1, (p.2.length : Int) - issues_count))
  let comparison := expected_miners.map (fun p =>
    let actual_count : Int := ((dictGet? devices_by_type p.1).getD []).length
    let issues_count : Int := ((dictGet? devices_with_issues p.1).getD []).length
    (p.1, ({ expected := p.2, actual := actual_count,
             working := actual_count - issues_count,
             with_issues := issues_count,
             offline := p.2 - actual_count } : ComparisonEntry)))
  { working := workingList, issues := devices_with_issues, comparison := comparison }

/-! ## Supporting lemmas -/

/-- Writing a key and reading it back yields the written value. -/
theorem getKey?_setKey_self (k : String) (v : PVal) (d : List (String × PVal)) :
    getKey? (setKey k v d) k = some v := by
  induction d with
  | nil => simp [setKey, getKey?]
  | cons hd tl ih =>
    simp only [setKey]
    split
    · simp [getKey?]
    · rename_i h
      simp [getKey?, h, ih]

/-- Writing one key leaves the others unchanged. -/
theorem getKey?_setKey_ne (k k2 : String) (v : PVal) (d : List (String × PVal))
    (h : k ≠ k2) : getKey? (setKey k v d) k2 = getKey? d k2 := by
  induction d with
  | nil => simp [setKey, getKey?, h]
  | cons hd tl ih =>
    simp only [setKey]
    split
    · rename_i heq
      simp [getKey?, heq, h]
    · rename_i hne
      simp [getKey?, ih]

/-- Detection results carry only the two device_type keys, so a read of
"source" falls back to None whatever the outcome. -/
theorem detect_device_type_get_source (detectors : List (String × Detector)) (ip : String) :
    pyGetD (detect_device_type detectors ip) "source" .none = .none := by
  induction detectors with
  | nil => rfl
  | cons hd tl ih =>
    simp only [detect_device_type]
    cases hout : hd.2 ip with
    | ok b =>
      cases b
      · simp only [hout]
        exact ih
      · simp only [hout]
        rfl
    | raise m =>
      simp only [hout]
      exact ih

/-! ## C10 -/

/-- C10: for every responsive IP handled by scan_subsection, the stored
record's device_type_source field is None whatever the detection outcome:
the loop reads the key "source" from the detection result, but
detect_device_type publishes provenance under "device_type_source", so
the stored field is always the dict.get default None. -/
theorem c10_device_type_source_is_none (detectors : List (String × Detector))
    (ip : String) (result : List (String × PVal)) (ip2 : String) :
    getKey? (storeDeviceRecord (detect_device_type detectors ip) result ip2)
      "device_type_source" = some PVal.none := by
  unfold storeDeviceRecord
  rw [detect_device_type_get_source]
  rw [getKey?_setKey_ne "ip" "device_type_source" _ _ (by decide)]
  exact getKey?_setKey_self _ _ _

/-! ## C7 -/

/-- C7: detect_device_type returns the first registered type whose
detector answers true, tagged with source "registry" (part one); when
every detector answers false or raises, it returns the unknown type with
a None source (part two); and a raising detector is interchangeable with
one that returns false (part three). -/
theorem c7_detect_first_match :
    (∀ (l1 l2 : List (String × Detector)) (t : String) (d : Detector) (ip : String),
        d ip = DetOutcome.ok true →
        (∀ p ∈ l1, p.2 ip ≠ DetOutcome.ok true) →
        detect_device_type (l1 ++ (t, d) :: l2) ip =
          [("device_type", PVal.str t), ("device_type_source", PVal.str "registry")]) ∧
    (∀ (detectors : List (String × Detector)) (ip : String),
        (∀ p ∈ detectors, p.2 ip ≠ DetOutcome.ok true) →
        detect_device_type detectors ip =
          [("device_type", PVal.str "unknown"), ("device_type_source", PVal.none)]) ∧
    (∀ (l1 l2 : List (String × Detector)) (t msg ip : String),
        detect_device_type (l1 ++ (t, fun _ => DetOutcome.raise msg) :: l2) ip =
          detect_device_type (l1 ++ (t, fun _ => DetOutcome.ok false) :: l2) ip) := by
  refine ⟨?_, ?_, ?_⟩
  · intro l1 l2 t d ip hd hfirst
    induction l1 with
    | nil => simp [detect_device_type, hd]
    | cons hd1 tl ih =>
      have hne := hfirst hd1 (List.mem_cons_self hd1 tl)
      simp only [List.cons_append, detect_device_type]
      cases hout : hd1.2 ip with
      | ok b =>
        cases b
        · exact ih (fun p hp => hfirst p (List.mem_cons_of_mem hd1 hp))
        · exact absurd hout hne
      | raise m => exact ih (fun p hp => hfirst p (List.mem_cons_of_mem hd1 hp))
  · intro detectors ip hall
    induction detectors with
    | nil => rfl
    | cons hd tl ih =>
      have hne := hall hd (List.mem_cons_self hd tl)
      simp only [detect_device_type]
      cases hout : hd.2 ip with
      | ok b =>
        cases b
        · exact ih (fun p hp => hall p (List.mem_cons_of_mem hd hp))
        · exact absurd hout hne
      | raise m => exact ih (fun p hp => hall p (List.mem_cons_of_mem hd hp))
  · intro l1 l2 t msg ip
    induction l1 with
    | nil => simp [detect_device_type]
    | cons hd tl ih =>
      simp only [List.cons_append, detect_device_type]
      cases hout : hd.2 ip with
      | ok b => cases b <;> simp [ih]
      | raise m => simp [ih]

/-- C7 witness: a raising first detector is skipped and the second, which
answers true, is selected with source "registry". -/
theorem c7_detect_first_match_witness :
    detect_device_type
      [("A", fun _ => DetOutcome.raise "boom"), ("B", fun _ => DetOutcome.ok true)]
      "10.0.0.7" =
      [("device_type", PVal.str "B"), ("device_type_source", PVal.str "registry")] :=
  c7_detect_first_match.1 [("A", fun _ => DetOutcome.raise "boom")] [] "B"
    (fun _ => DetOutcome.ok true) "10.0.0.7" rfl
    (by
      intro p hp
      rw [List.mem_singleton] at hp
      subst hp
      intro hcon
      exact DetOutcome.noConfusion hcon)

/-! ## C1 -/

/-- A device record of type T21 with no telemetry fields, as stored for a
responsive address whose analysis finds no issues. -/
def c1DeviceRecord : DeviceData :=
  { device_type := some "T21", hashboards := none, fans := none,
    hashrate := none, message := none }

/-- A subsection expecting one T21 while two responsive T21 devices are
found. -/
def c1Input : SubsectionInput :=
  { expected_miners := [("T21", 1)],
    devices := [("10.0.0.1", c1DeviceRecord), ("10.0.0.2", c1DeviceRecord)] }

/-- C1 (amended): every comparison record of a subsection summary
satisfies working = actual - with_issues and offline = expected - actual;
the offline figure is the plain difference, with no clamping at zero. -/
theorem c1_comparison_arithmetic (models : List (String × ModelSpec))
    (sub : SubsectionInput) (t : String) (c : ComparisonEntry)
    (hmem : (t, c) ∈ (generate_subsection_summary models sub).comparison) :
    c.working = c.actual - c.with_issues ∧ c.offline = c.expected - c.actual := by
  simp only [generate_subsection_summary] at hmem
  rw [List.mem_map] at hmem
  obtain ⟨p, _, heq⟩ := hmem
  rw [Prod.ext_iff] at heq
  obtain ⟨_, h2⟩ := heq
  subst h2
  exact ⟨rfl, rfl⟩

/-- C1 witness: the arithmetic laws instantiated on the two-device
subsection. -/
theorem c1_comparison_arithmetic_witness :
    (({ expected := 1, actual := 2, working := 2, with_issues := 0,
        offline := -1 } : ComparisonEntry)).working = 2 - 0 ∧
    (({ expected := 1, actual := 2, working := 2, with_issues := 0,
        offline := -1 } : ComparisonEntry)).offline = 1 - 2 :=
  c1_comparison_arithmetic [] c1Input "T21"
    { expected := 1, actual := 2, working := 2, with_issues := 0, offline := -1 }
    (List.Mem.head _)

/-- C1 counterexample: with one T21 expected and two found, the summary
stores offline = -1, which is negative and differs from
max(expected - actual, 0) = 0. -/
theorem c1_offline_negative_counterexample :
    (generate_subsection_summary [] c1Input).comparison =
      [("T21", { expected := 1, actual := 2, working := 2, with_issues := 0,
                 offline := -1 })] ∧
    (((-1 : Int) == max (1 - 2 : Int) 0)) = false ∧
    ((-1 : Int) < 0) = True := by
  exact ⟨rfl, by decide, by simp⟩

/-! ## C9 -/

/-- A telemetry record carrying only a fans list, for the fan rule of the
analyzer. -/
def fanOnlyRecord (dt : String) (fans : List (Option ℚ)) : DeviceData :=
  { device_type := some dt, hashboards := none, fans := some fans,
    hashrate := none, message := none }

/-- The active-fan count the analyzer derives from a fans list. -/
def activeFanCount (fans : List (Option ℚ)) : Int :=
  ((fans.filter (fun sp => sp.getD 0 > 0)).length : Int)

/-- The expected fan count the analyzer reads from the model table
(defaulting to 2). -/
def expectedFansOf (models : List (String × ModelSpec)) (dt : String) : Int :=
  (((dictGet? models dt).getD { hashrate := none, hb := none, fans := none }).fans).getD 2

/-- A model table configuring four fans for model X. -/
def c9Models : List (String × ModelSpec) :=
  [("X", { hashrate := none, hb := none, fans := some 4 })]

/-- Four fan slots of which two spin. -/
def c9FansTwoActive : List (Option ℚ) := [some 100, some 200, some 0, none]

/-- Four fan slots, none spinning. -/
def c9FansNoneActive : List (Option ℚ) := [some 0, none, some 0, none]

/-- C9: the fan rule is monotone: lowering the active-fan count can only
keep or strengthen the fan issue (the missing count never shrinks), and
for four expected fans the analyzer reports exactly "Missing 2 Fan(s)"
at two active fans and exactly "No fans" at zero. -/
theorem c9_fan_rule_monotone :
    (∀ (models : List (String × ModelSpec)) (dt : String)
       (fans fans' : List (Option ℚ)) (m : String),
        activeFanCount fans' ≤ activeFanCount fans →
        (analyze_device_issues models (fanOnlyRecord dt fans)).fans = some m →
        (∃ m', (analyze_device_issues models (fanOnlyRecord dt fans')).fans = some m') ∧
        expectedFansOf models dt - activeFanCount fans' ≥
          expectedFansOf models dt - activeFanCount fans) ∧
    (analyze_device_issues c9Models (fanOnlyRecord "X" c9FansTwoActive)).fans =
      some "Missing 2 Fan(s)" ∧
    (analyze_device_issues c9Models (fanOnlyRecord "X" c9FansNoneActive)).fans =
      some "No fans" := by
  refine ⟨?_, rfl, rfl⟩
  intro models dt fans fans' m hle h
  simp only [analyze_device_issues, fanOnlyRecord, Option.getD_some] at h ⊢
  by_cases hc : activeFanCount fans <
      (((dictGet? models dt).getD { hashrate := none, hb := none, fans := none }).fans).getD 2
  · have hc' : activeFanCount fans' <
        (((dictGet? models dt).getD { hashrate := none, hb := none, fans := none }).fans).getD 2 :=
      lt_of_le_of_lt hle hc
    constructor
    · simp only [activeFanCount] at hc'
      exact ⟨_, if_pos hc'⟩
    · simp only [expectedFansOf]
      omega
  · exfalso
    simp only [activeFanCount] at hc
    rw [if_neg hc] at h
    exact Option.noConfusion h

/-- C9 witness: the monotonicity instantiated from two active fans down
to zero active fans under the four-fan model spec. -/
theorem c9_fan_rule_monotone_witness :
    (∃ m', (analyze_device_issues c9Models (fanOnlyRecord "X" c9FansNoneActive)).fans
      = some m') ∧
    expectedFansOf c9Models "X" - activeFanCount c9FansNoneActive ≥
      expectedFansOf c9Models "X" - activeFanCount c9FansTwoActive :=
  c9_fan_rule_monotone.1 c9Models "X" c9FansTwoActive c9FansNoneActive
    "Missing 2 Fan(s)" (by decide) rfl

/-! ## C2 -/

/-- A Z15j socket stats response whose STATS[1] fan object expects two
fans (fan_num = 2) while every fan slot reads zero RPM; the top-level
response object has no fan_num key. -/
def c2SocketPayload : String :=
  "\x7b\"STATS\":[\x7b\"Type\":\"Antminer Z15j\"\x7d,\x7b\"fan_num\":2,\"fan1\":0,\"fan2\":0,\"fan3\":0,\"fan4\":0\x7d]\x7d"

/-- The STATS[1] fan object of that response. -/
def c2FanStatsObj : Json :=
  .obj [("fan_num", .num 2), ("fan1", .num 0), ("fan2", .num 0),
        ("fan3", .num 0), ("fan4", .num 0)]

/-- C2: fetch_logs reads the expected fan count with stats.get("fan_num")
on the top-level response, not on the STATS[1] fan object; on a response
where fan_num lives only in STATS[1], the expectation defaults to zero
and the device is reported healthy (status "ok", empty message) although
extract_z15j_fan_status, computed over STATS[1] as the claim describes,
finds 2 failed fans, so the claimed result would be the error
"No 2 Fan find, check again". -/
theorem c2_fetch_ok_despite_failed_fans :
    loads c2SocketPayload =
      some (.obj [("STATS", .arr [.obj [("Type", .str "Antminer Z15j")], c2FanStatsObj])]) ∧
    extract_z15j_fan_status c2FanStatsObj =
      (2, [("fan1", 0), ("fan2", 0), ("fan3", 0), ("fan4", 0)], none) ∧
    (z15jFetchLogs "10.34.4.56" (.data c2SocketPayload) (.exc "unreachable")).status = "ok" ∧
    (z15jFetchLogs "10.34.4.56" (.data c2SocketPayload) (.exc "unreachable")).message = "" := by
  refine ⟨?_, ?_, rfl, rfl⟩
  · with_unfolding_all rfl
  · with_unfolding_all rfl

/-! ## C4 -/

/-- A socket payload with the documented Z15j malformation nested in the
STATS array: invalid as received, valid once the missing comma is
inserted. -/
def c4Payload : String :=
  "\x7b\"STATS\":[\x7b\"a\":1\x7d\x7b\"b\":2\x7d]\x7d"

/-- C4: the generic socket handler surfaces its JSON-parsing-error
dictionary for every undecodable payload, because the repair method it
calls (fix_malformed_json) is defined nowhere in the repository and the
resulting AttributeError is swallowed by the same handler - even for the
payload above, which the documented repair transform would make
parseable. -/
theorem c4_decode_error_despite_repairable_payload :
    (∀ payload : String,
        loads (rstripChar '%' (rstripChar (Char.ofNat 0) payload)) = none →
        sendSocketCommandBase (NetOutcome.data payload) =
          .obj [("error", .str "JSON parsing error: AttributeError (no attribute fix_malformed_json)"),
                ("raw", .str payload)]) ∧
    loads c4Payload = none ∧
    (loads (fix_z15j_json c4Payload)).isSome = true := by
  refine ⟨?_, rfl, rfl⟩
  intro payload h
  simp only [sendSocketCommandBase]
  rw [h]

/-! ## C3 -/

/-- A valid JSON document whose string payload contains the two adjacent
brace characters. -/
def c3ValidWithBraces : String := "\x7b\"a\": \"\x7d\x7b\"\x7d"

/-- What the repair transform turns it into: the comma lands inside the
string literal. -/
def c3AlteredResult : String := "\x7b\"a\": \"\x7d,\x7b\"\x7d"

/-- Two complete JSON objects concatenated at top level. -/
def c3TwoObjects : String := "\x7b\"a\":1\x7d\x7b\"b\":2\x7d"

/-- The same text with a comma inserted at the object boundary - not a
JSON document. -/
def c3TwoObjectsComma : String := "\x7b\"a\":1\x7d,\x7b\"b\":2\x7d"

/-- The malformation as the Z15j firmware actually produces it, nested
inside the STATS array. -/
def c3NestedMalformed : String := "\x7b\"STATS\":[\x7b\"a\":1\x7d\x7b\"b\":2\x7d]\x7d"

/-- Its repair, which is a valid document. -/
def c3NestedRepaired : String := "\x7b\"STATS\":[\x7b\"a\":1\x7d,\x7b\"b\":2\x7d]\x7d"

/-- C3 counterexample: on a valid JSON document whose string literal
contains the brace pair the repair inserts the comma inside the string
literal, so the repaired text still parses, but to a different value -
the string data is silently corrupted; and applied to two complete
objects concatenated at top level it inserts the comma at the boundary
yet the result still fails to parse. -/
theorem c3_repair_counterexample :
    loads c3ValidWithBraces = some (.obj [("a", .str "\x7d\x7b")]) ∧
    fix_z15j_json c3ValidWithBraces = c3AlteredResult ∧
    loads c3AlteredResult = some (.obj [("a", .str "\x7d,\x7b")]) ∧
    (c3AlteredResult == c3ValidWithBraces) = false ∧
    fix_z15j_json c3TwoObjects = c3TwoObjectsComma ∧
    loads c3TwoObjectsComma = none :=
  ⟨rfl, rfl, rfl, rfl, rfl, rfl⟩

/-- The repair leaves any text without the brace pair unchanged. -/
theorem fixPairChars_of_no_adj :
    ∀ cs : List Char, hasBraceAdj cs = false → fixPairChars cs = cs
  | [], _ => rfl
  | [_], _ => rfl
  | c1 :: c2 :: rest, h => by
    rw [hasBraceAdj] at h
    rw [Bool.or_eq_false_iff] at h
    have hbr : ¬ (c1 = '}' ∧ c2 = '{') := by
      intro hc
      simp [hc.1, hc.2] at h
    rw [fixPairChars, if_neg hbr]
    rw [fixPairChars_of_no_adj (c2 :: rest) h.2]

/-- The repair never shortens its input. -/
theorem fixPairChars_length_ge :
    ∀ cs : List Char, cs.length ≤ (fixPairChars cs).length
  | [] => le_refl _
  | [_] => le_refl _
  | c1 :: c2 :: rest => by
    rw [fixPairChars]
    split
    · have := fixPairChars_length_ge rest
      simp only [List.length_cons]
      omega
    · have := fixPairChars_length_ge (c2 :: rest)
      simp only [List.length_cons] at this ⊢
      omega

/-- On text containing the brace pair the repair strictly grows the
input, so it cannot be the identity there. -/
theorem fixPairChars_length_gt :
    ∀ cs : List Char, hasBraceAdj cs = true → cs.length < (fixPairChars cs).length
  | c1 :: c2 :: rest, h => by
    rw [fixPairChars]
    by_cases hbr : c1 = '}' ∧ c2 = '{'
    · rw [if_pos hbr]
      have := fixPairChars_length_ge rest
      simp only [List.length_cons]
      omega
    · rw [if_neg hbr]
      rw [hasBraceAdj] at h
      have h2 : hasBraceAdj (c2 :: rest) = true := by
        rcases Bool.or_eq_true_iff.mp h with h1 | h2
        · exact absurd ⟨by simpa using (Bool.and_eq_true_iff.mp h1).1,
            by simpa using (Bool.and_eq_true_iff.mp h1).2⟩ hbr
        · exact h2
      have := fixPairChars_length_gt (c2 :: rest) h2
      simp only [List.length_cons] at this ⊢
      omega

/-- C3 (amended): the repair transform is the identity exactly on the
strings that contain no adjacent brace pair - in particular on every
valid JSON document without one - and on the Z15j malformation proper
(adjacent objects inside the STATS array) it inserts the comma at the
boundary and the repaired text parses. -/
theorem c3_repair_identity_iff :
    (∀ s : String, fix_z15j_json s = s ↔ hasBraceAdj s.toList = false) ∧
    fix_z15j_json c3NestedMalformed = c3NestedRepaired ∧
    (loads c3NestedRepaired).isSome = true := by
  refine ⟨?_, rfl, rfl⟩
  intro s
  constructor
  · intro hfix
    cases hb : hasBraceAdj s.toList
    · rfl
    · exfalso
      have hlen := fixPairChars_length_gt s.toList hb
      have : (fix_z15j_json s).toList = s.toList := by rw [hfix]
      rw [fix_z15j_json] at this
      have hconv : (String.mk (fixPairChars s.toList)).toList = fixPairChars s.toList := rfl
      rw [hconv] at this
      rw [this] at hlen
      omega
  · intro hnone
    rw [fix_z15j_json, fixPairChars_of_no_adj s.toList hnone]
    cases s
    rfl

/-- C3 witness: identity instantiated on the valid document 10.0.0.1's
handler actually receives when the payload is already well formed. -/
theorem c3_repair_identity_witness :
    fix_z15j_json "\x7b\"a\": 1\x7d" = "\x7b\"a\": 1\x7d" :=
  (c3_repair_identity_iff.1 "\x7b\"a\": 1\x7d").mpr rfl

/-! ## C6 -/

/-- Removal of the first entry with a given key (what the pop inside the
reorder loop leaves behind). -/
def eraseKey (t : String) : List (String × δ) → List (String × δ)
  | [] => []
  | p :: rest => if p.1 = t then rest else p :: eraseKey t rest

/-- The pop of the reorder loop, described through lookup and
removal. -/
theorem popKey_eq (t : String) (regs : List (String × δ)) :
    popKey t regs = (dictGet? regs t).map (fun v => (v, eraseKey t regs)) := by
  induction regs with
  | nil => rfl
  | cons hd tl ih =>
    obtain ⟨k, v⟩ := hd
    simp only [popKey, dictGet?, eraseKey]
    split
    · rfl
    · rw [ih]
      cases dictGet? tl t <;> rfl

/-- Removing one key leaves every other key's first binding in place. -/
theorem dictGet?_eraseKey_ne (t t2 : String) (h : t2 ≠ t) (regs : List (String × δ)) :
    dictGet? (eraseKey t regs) t2 = dictGet? regs t2 := by
  induction regs with
  | nil => rfl
  | cons hd tl ih =>
    obtain ⟨k, v⟩ := hd
    rw [eraseKey]
    by_cases hk : k = t
    · rw [if_pos hk]
      have hne2 : ¬ (k, v).1 = t2 := by
        intro he
        exact h (by rw [← he, hk])
      simp only [dictGet?]
      rw [if_neg hne2]
    · rw [if_neg hk]
      simp only [dictGet?]
      by_cases hk2 : (k, v).1 = t2
      · rw [if_pos hk2, if_pos hk2]
      · rw [if_neg hk2, if_neg hk2, ih]

/-- A key that looks up to nothing heads no entry. -/
theorem dictGet?_none_keys (regs : List (String × δ)) (t : String)
    (h : dictGet? regs t = none) : ∀ p ∈ regs, p.1 ≠ t := by
  induction regs with
  | nil => intro p hp; cases hp
  | cons hd tl ih =>
    obtain ⟨k, v⟩ := hd
    rw [dictGet?] at h
    intro p hp
    rcases List.mem_cons.mp hp with rfl | hmem
    · intro hke
      rw [if_pos hke] at h
      exact Option.noConfusion h
    · split at h
      · exact Option.noConfusion h
      · exact ih h p hmem

/-- Key removal yields a sublist. -/
theorem eraseKey_sublist (t : String) (regs : List (String × δ)) :
    List.Sublist (eraseKey t regs) regs := by
  induction regs with
  | nil => exact List.Sublist.refl _
  | cons hd tl ih =>
    rw [eraseKey]
    split
    · exact List.sublist_cons_self hd tl
    · exact List.Sublist.cons₂ hd ih

/-- Key removal preserves distinctness of keys. -/
theorem keys_nodup_eraseKey (t : String) (regs : List (String × δ))
    (h : (regs.map Prod.fst).Nodup) : ((eraseKey t regs).map Prod.fst).Nodup :=
  ((eraseKey_sublist t regs).map Prod.fst).nodup h

/-- With distinct keys, filtering away a popped key's group commutes with
the removal. -/
theorem filter_cons_eraseKey (t : String) (ts : List String)
    (regs : List (String × δ)) (hnd : (regs.map Prod.fst).Nodup) :
    regs.filter (fun e => decide (e.1 ∉ t :: ts)) =
      (eraseKey t regs).filter (fun e => decide (e.1 ∉ ts)) := by
  induction regs with
  | nil => rfl
  | cons hd tl ih =>
    obtain ⟨k, v⟩ := hd
    rw [List.map_cons, List.nodup_cons] at hnd
    rw [eraseKey]
    by_cases hk : k = t
    · rw [if_pos hk]
      rw [List.filter_cons]
      have h1 : decide ((k, v).1 ∉ t :: ts) = false := by simp [hk]
      rw [h1]
      simp only [Bool.false_eq_true, if_false]
      apply List.filter_congr
      intro e he
      have hkey : e.1 ≠ t := by
        intro hc
        apply hnd.1
        have hmap : e.1 ∈ tl.map Prod.fst := List.mem_map_of_mem Prod.fst he
        rw [hc, ← hk] at hmap
        exact hmap
      simp [List.mem_cons, hkey]
    · rw [if_neg hk]
      rw [List.filter_cons, List.filter_cons]
      have hiff : ((k, v).1 ∉ t :: ts) ↔ ((k, v).1 ∉ ts) := by
        simp [List.mem_cons, hk]
      by_cases hmem : k ∈ ts
      · have h1 : decide ((k, v).1 ∉ t :: ts) = false := by
          simp [List.mem_cons, hmem]
        have h2 : decide ((k, v).1 ∉ ts) = false := by simp [hmem]
        rw [h1, h2]
        exact ih hnd.2
      · have h1 : decide ((k, v).1 ∉ t :: ts) = true := by
          simp [List.mem_cons, hmem, hk]
        have h2 : decide ((k, v).1 ∉ ts) = true := by simp [hmem]
        rw [h1, h2]
        rw [ih hnd.2]

/-- The reorder loop, described as a partition: the registered preferred
names in order, and the untouched remainder. -/
theorem reorderGo_spec (preferred : List String) :
    ∀ (regs : List (String × δ)), preferred.Nodup → (regs.map Prod.fst).Nodup →
      reorderGo preferred regs =
        (preferred.filterMap (fun t => (dictGet? regs t).map (fun v => (t, v))),
         regs.filter (fun e => decide (e.1 ∉ preferred))) := by
  induction preferred with
  | nil =>
    intro regs _ _
    simp only [reorderGo, List.filterMap_nil]
    rw [List.filter_eq_self.mpr]
    intro e _
    simp
  | cons t ts ih =>
    intro regs hp hr
    rw [List.nodup_cons] at hp
    rw [reorderGo, popKey_eq]
    cases hdg : dictGet? regs t with
    | none =>
      simp only [Option.map_none']
      rw [ih regs hp.2 hr]
      have hkeys := dictGet?_none_keys regs t hdg
      refine Prod.ext ?_ ?_ <;> simp only
      · rw [List.filterMap_cons]
        simp only [hdg, Option.map_none']
      · apply List.filter_congr
        intro e he
        have := hkeys e he
        simp [List.mem_cons, this]
    | some v =>
      simp only [Option.map_some']
      rw [ih (eraseKey t regs) hp.2 (keys_nodup_eraseKey t regs hr)]
      refine Prod.ext ?_ ?_ <;> simp only
      · rw [List.filterMap_cons]
        simp only [hdg, Option.map_some']
        congr 1
        apply List.filterMap_congr
        intro t2 ht2
        have hne : t2 ≠ t := fun hc => hp.1 (hc ▸ ht2)
        rw [dictGet?_eraseKey_ne t t2 hne regs]
      · exact (filter_cons_eraseKey t ts regs hr).symm

/-- C6: reorder_detectors is a stable partition - the registered names of
the preferred list move to the front in the given order (unregistered
names are skipped) and every remaining entry follows in its previous
relative order - and consequently, after reorder(["B", "A"]), detection
over two detectors that both answer true selects B, never A. -/
theorem c6_reorder_stable_partition :
    (∀ (preferred : List String) (regs : List (String × Detector)),
        preferred.Nodup → (regs.map Prod.fst).Nodup →
        reorder_detectors preferred regs =
          preferred.filterMap (fun t => (dictGet? regs t).map (fun v => (t, v))) ++
            regs.filter (fun e => decide (e.1 ∉ preferred))) ∧
    (∀ (regs : List (String × Detector)) (A B : String) (dA dB : Detector) (ip : String),
        (regs.map Prod.fst).Nodup → A ≠ B →
        dictGet? regs A = some dA → dictGet? regs B = some dB →
        dA ip = DetOutcome.ok true → dB ip = DetOutcome.ok true →
        detect_device_type (reorder_detectors [B, A] regs) ip =
          [("device_type", PVal.str B), ("device_type_source", PVal.str "registry")]) := by
  constructor
  · intro preferred regs hp hr
    rw [reorder_detectors]
    split
    · rename_i hemp
      rw [List.isEmpty_iff] at hemp
      subst hemp
      simp only [List.filterMap_nil, List.nil_append]
      rw [List.filter_eq_self.mpr]
      intro e _
      simp
    · rw [reorderGo_spec preferred regs hp hr]
  · intro regs A B dA dB ip hr hAB hA hB hdA hdB
    have h1 : popKey B regs = some (dB, eraseKey B regs) := by
      rw [popKey_eq, hB]
      rfl
    rw [reorder_detectors]
    rw [if_neg (by simp)]
    rw [reorderGo, h1]
    simp only [List.cons_append, detect_device_type, hdB]

/-- C6 witness: with detectors for A, B and C all registered and both A
and B answering true, reorder(["B","A"]) followed by detection yields
B. -/
theorem c6_reorder_stable_partition_witness :
    detect_device_type
      (reorder_detectors ["B", "A"]
        [("A", fun _ => DetOutcome.ok true), ("B", fun _ => DetOutcome.ok true),
         ("C", fun _ => DetOutcome.ok false)])
      "10.1.1.1" =
      [("device_type", PVal.str "B"), ("device_type_source", PVal.str "registry")] :=
  c6_reorder_stable_partition.2
    [("A", fun _ => DetOutcome.ok true), ("B", fun _ => DetOutcome.ok true),
     ("C", fun _ => DetOutcome.ok false)]
    "A" "B" (fun _ => DetOutcome.ok true) (fun _ => DetOutcome.ok true) "10.1.1.1"
    (by decide) (by decide) rfl rfl rfl rfl

/-! ## C8 -/

set_option maxRecDepth 8000 in
/-- Decimal rendering of an octet value round-trips through the digit
reader. -/
theorem natToChars_roundtrip : ∀ n < 256, digitsToNat (natToChars n) = n := by decide

/-- Octet rendering is injective below 256. -/
theorem natToChars_injOn (a : Nat) (ha : a < 256) (b : Nat) (hb : b < 256)
    (h : natToChars a = natToChars b) : a = b := by
  have h1 := natToChars_roundtrip a ha
  have h2 := natToChars_roundtrip b hb
  rw [← h1, ← h2, h]

/-- Octet extraction undoes octet packing. -/
theorem ipOfOctets_div_mod (a b c d : Nat) (ha : a < 256) (hb : b < 256)
    (hc : c < 256) (hd : d < 256) :
    ipOfOctets a b c d / 2 ^ 24 % 256 = a ∧ ipOfOctets a b c d / 2 ^ 16 % 256 = b ∧
    ipOfOctets a b c d / 2 ^ 8 % 256 = c ∧ ipOfOctets a b c d % 256 = d := by
  unfold ipOfOctets
  refine ⟨?_, ?_, ?_, ?_⟩ <;> · show _ = _; norm_num; omega

/-- Formatting a packed quad prints its four octets. -/
theorem formatIPv4_octets (a b c d : Nat) (ha : a < 256) (hb : b < 256)
    (hc : c < 256) (hd : d < 256) :
    formatIPv4 (ipOfOctets a b c d) =
      String.mk (natToChars a ++ '.' :: natToChars b ++ '.' :: natToChars c ++
                 '.' :: natToChars d) := by
  obtain ⟨h1, h2, h3, h4⟩ := ipOfOctets_div_mod a b c d ha hb hc hd
  unfold formatIPv4
  rw [h1, h2, h3, h4]

/-- Two addresses of one /24 network with different host octets format
differently. -/
theorem formatIPv4_last_octet_inj (a b c d d' : Nat) (ha : a < 256) (hb : b < 256)
    (hc : c < 256) (hd : d < 256) (hd' : d' < 256)
    (h : formatIPv4 (ipOfOctets a b c d) = formatIPv4 (ipOfOctets a b c d')) :
    d = d' := by
  rw [formatIPv4_octets a b c d ha hb hc hd,
      formatIPv4_octets a b c d' ha hb hc hd'] at h
  have hdata : natToChars a ++ '.' :: natToChars b ++ '.' :: natToChars c ++
      '.' :: natToChars d =
      natToChars a ++ '.' :: natToChars b ++ '.' :: natToChars c ++
      '.' :: natToChars d' := congrArg String.data h
  simp only [List.append_cancel_left_eq, List.cons.injEq, true_and] at hdata
  exact natToChars_injOn d hd d' hd' hdata

set_option maxRecDepth 10000 in
/-- C8: every well-formed /24 CIDR input a.b.c.0/24 expands to exactly
the 254 host addresses a.b.c.1 through a.b.c.254, excluding the network
and broadcast addresses, and the dash-range input 10.0.0.1-10 expands to
exactly the ten addresses 10.0.0.1 through 10.0.0.10. -/
theorem c8_expansion :
    (∀ (s : String) (a b c : Nat), a < 256 → b < 256 → c < 256 →
        s.toList.contains '/' = true →
        ipNetworkV4? s.toList = some (ipOfOctets a b c 0, 24) →
        parse_ip_range s =
          (List.range 254).map (fun i => formatIPv4 (ipOfOctets a b c (i + 1))) ∧
        (parse_ip_range s).length = 254 ∧
        formatIPv4 (ipOfOctets a b c 0) ∉ parse_ip_range s ∧
        formatIPv4 (ipOfOctets a b c 255) ∉ parse_ip_range s) ∧
    parse_ip_range "10.0.0.1-10" =
      ["10.0.0.1", "10.0.0.2", "10.0.0.3", "10.0.0.4", "10.0.0.5",
       "10.0.0.6", "10.0.0.7", "10.0.0.8", "10.0.0.9", "10.0.0.10"] := by
  constructor
  · intro s a b c ha hb hc hslash hnet
    have hmain : parse_ip_range s =
        ((List.range 254).map (fun i => ipOfOctets a b c 0 + 1 + i)).map formatIPv4 := by
      unfold parse_ip_range
      simp only [hslash, hnet, if_true]
      rfl
    have hfun : ∀ i ∈ List.range 254,
        formatIPv4 (ipOfOctets a b c 0 + 1 + i) = formatIPv4 (ipOfOctets a b c (i + 1)) := by
      intro i _
      congr 1
      unfold ipOfOctets
      ring
    have hlist : parse_ip_range s =
        (List.range 254).map (fun i => formatIPv4 (ipOfOctets a b c (i + 1))) := by
      rw [hmain, List.map_map]
      exact List.map_congr_left (fun i hi => by
        simpa [Function.comp] using hfun i hi)
    refine ⟨hlist, by rw [hlist]; simp, ?_, ?_⟩
    · rw [hlist]
      intro hmem
      rw [List.mem_map] at hmem
      obtain ⟨i, hi, heq⟩ := hmem
      rw [List.mem_range] at hi
      have := formatIPv4_last_octet_inj a b c (i + 1) 0 ha hb hc (by omega) (by omega) heq
      omega
    · rw [hlist]
      intro hmem
      rw [List.mem_map] at hmem
      obtain ⟨i, hi, heq⟩ := hmem
      rw [List.mem_range] at hi
      have := formatIPv4_last_octet_inj a b c (i + 1) 255 ha hb hc (by omega) (by omega) heq
      omega
  · with_unfolding_all rfl

/-- C8 witness: the /24 guarantees instantiated on 10.0.0.0/24. -/
theorem c8_expansion_witness :
    (parse_ip_range "10.0.0.0/24").length = 254 ∧
    formatIPv4 (ipOfOctets 10 0 0 0) ∉ parse_ip_range "10.0.0.0/24" ∧
    formatIPv4 (ipOfOctets 10 0 0 255) ∉ parse_ip_range "10.0.0.0/24" :=
  have h := c8_expansion.1 "10.0.0.0/24" 10 0 0 (by decide) (by decide) (by decide)
    (by decide) (by with_unfolding_all rfl)
  ⟨h.2.1, h.2.2.1, h.2.2.2⟩

/-! ## C5 -/

/-- The status values the handler layer produces. -/
def isTaggedStatus (s : String) : Prop :=
  s = "success" ∨ s = "error" ∨ s = "ok"

/-- Splitting a successful Except bind into its two successful stages. -/
theorem except_bind_ok {α β : Type} (x : Except String α) (f : α → Except String β)
    (b : β) (h : (x >>= f) = .ok b) : ∃ a, x = .ok a ∧ f a = .ok b := by
  cases x with
  | error e =>
    rw [show ((Except.error e : Except String α) >>= f) = Except.error e from rfl] at h
    exact Except.noConfusion h
  | ok a =>
    rw [show ((Except.ok a : Except String α) >>= f) = f a from rfl] at h
    exact ⟨a, rfl, h⟩

/-- An ok-some Except value determines its payload. -/
theorem except_ok_some_eq {α : Type} (x y : α)
    (h : (Except.ok (some x) : Except String (Option α)) = .ok (some y)) : y = x := by
  rw [Except.ok.injEq, Option.some.injEq] at h
  exact h.symm

/-- A pure Except value determines its payload. -/
theorem except_pure_eq {α : Type} (x y : α)
    (h : (pure x : Except String α) = Except.ok y) : y = x := by
  have h2 : Except.ok x = Except.ok y := h
  rw [Except.ok.injEq] at h2
  exact h2.symm

/-- An ok Except value determines its payload. -/
theorem except_ok_eq {α : Type} (x y : α)
    (h : (Except.ok x : Except String α) = .ok y) : y = x := by
  rw [Except.ok.injEq] at h
  exact h.symm

/-- An ok-none Except value is never ok-some. -/
theorem except_ok_none_ne {α : Type} (y : α)
    (h : (Except.ok none : Except String (Option α)) = .ok (some y)) : False := by
  rw [Except.ok.injEq] at h
  exact Option.noConfusion h

/-- An error Except value is never ok. -/
theorem except_error_ne_ok {α : Type} (e : String) (b : α)
    (h : (Except.error e : Except String α) = .ok b) : False :=
  Except.noConfusion h

/-- Every dictionary the Z15j HTTP log parse returns is tagged success or
error. -/
theorem parse_z15j_http_log_status (b : String) (ld : Z15jHttpLogRes)
    (h : parse_z15j_http_log b = .ok (some ld)) :
    ld.status = "success" ∨ ld.status = "error" := by
  unfold parse_z15j_http_log at h
  split at h
  · obtain ⟨hasLog, hx, h⟩ := except_bind_ok _ _ _ h
    cases hasLog
    · rw [if_neg (by simp)] at h
      exact absurd (except_ok_none_ne _ h) not_false
    · rw [if_pos rfl] at h
      obtain ⟨v, hv, h⟩ := except_bind_ok _ _ _ h
      by_cases ht : pyTruthy v = true
      · rw [if_pos ht] at h
        cases v with
        | str s =>
          left
          rw [except_ok_some_eq _ _ h]
        | null => exact absurd (except_error_ne_ok _ _ h) not_false
        | bool b2 => exact absurd (except_error_ne_ok _ _ h) not_false
        | num q => exact absurd (except_error_ne_ok _ _ h) not_false
        | arr xs => exact absurd (except_error_ne_ok _ _ h) not_false
        | obj es => exact absurd (except_error_ne_ok _ _ h) not_false
      · rw [if_neg ht] at h
        left
        rw [except_ok_some_eq _ _ h]
  · try dsimp only [] at h
    split at h
    · right
      rw [except_ok_some_eq _ _ h]
    · split at h
      · right
        rw [except_ok_some_eq _ _ h]
      · left
        rw [except_ok_some_eq _ _ h]

/-- Every result of the Z15j HTTP fallback is tagged success, error or
ok. -/
theorem z15j_fetch_logs_via_http_status (ip : String) (http : HttpOutcome)
    (ig : Bool) : isTaggedStatus (z15j_fetch_logs_via_http ip http ig).status := by
  unfold z15j_fetch_logs_via_http
  cases http with
  | exc m => right; left; rfl
  | response code body =>
    dsimp only []
    by_cases hc : code = 200
    · rw [if_pos hc]
      split
      · right; left; rfl
      · right; left; rfl
      · rename_i ld heq
        try dsimp only []
        split
        · right; right; rfl
        · rcases parse_z15j_http_log_status body ld heq with hs | hs
          · left; exact hs
          · right; left; exact hs
    · rw [if_neg hc]
      right; left; rfl

/-- Every direct return of the Z15j socket branch is tagged ok or
error. -/
theorem z15jSocketBranch_status (stats : Json) (r : Z15jResult)
    (h : z15jSocketBranch stats = .ok (some r)) :
    r.status = "ok" ∨ r.status = "error" := by
  unfold z15jSocketBranch at h
  by_cases htr : pyTruthy stats = true
  · rw [if_pos htr] at h
    obtain ⟨hasStats, _, h⟩ := except_bind_ok _ _ _ h
    cases hasStats
    · rw [if_neg (by simp)] at h
      exact absurd (except_ok_none_ne _ h) not_false
    · rw [if_pos rfl] at h
      obtain ⟨sv, _, h⟩ := except_bind_ok _ _ _ h
      obtain ⟨l, _, h⟩ := except_bind_ok _ _ _ h
      by_cases hl : l > 1
      · rw [if_pos hl] at h
        obtain ⟨fan_stats, _, h⟩ := except_bind_ok _ _ _ h
        try dsimp only [] at h
        rcases hext : extract_z15j_fan_status fan_stats with ⟨f, fd, em⟩
        rw [hext] at h
        try dsimp only [] at h
        cases em with
        | some e =>
          right
          rw [except_ok_some_eq _ _ h]
        | none =>
          obtain ⟨fanNumTop, _, h⟩ := except_bind_ok _ _ _ h
          obtain ⟨expected, _, h⟩ := except_bind_ok _ _ _ h
          split at h
          · left
            rw [except_ok_some_eq _ _ h]
          · right
            try dsimp only [] at h
            rw [except_ok_some_eq _ _ h]
      · rw [if_neg hl] at h
        exact absurd (except_ok_none_ne _ h) not_false
  · rw [if_neg htr] at h
    exact absurd (except_ok_none_ne _ h) not_false

/-- Every Z15j fetch result is tagged success, error or ok. -/
theorem z15jFetchLogs_status (ip : String) (sock : NetOutcome) (http : HttpOutcome)
    (ig : Bool) : isTaggedStatus (z15jFetchLogs ip sock http ig).status := by
  unfold z15jFetchLogs
  try dsimp only []
  split
  · rename_i r heq
    rcases z15jSocketBranch_status _ r heq with hs | hs
    · right; right; exact hs
    · right; left; exact hs
  · exact z15j_fetch_logs_via_http_status ip http ig
  · exact z15j_fetch_logs_via_http_status ip http ig

/-- Every result of the shared socket fan fetcher is tagged success or
error. -/
theorem socketFanFetch_status (dt ip : String) (net : NetOutcome) :
    (socketFanFetch dt ip net).status = "success" ∨
    (socketFanFetch dt ip net).status = "error" := by
  unfold socketFanFetch
  try dsimp only []
  split
  · rename_i rr heq
    obtain ⟨hasErr, _, heq⟩ := except_bind_ok _ _ _ heq
    cases hasErr
    · rw [if_neg (by simp)] at heq
      try dsimp only [] at heq
      split at heq
      · right
        have := except_pure_eq _ _ heq
        rw [this]
      · split at heq
        · have := except_pure_eq _ _ heq
          rw [this]
          by_cases hm : pyTruthy (get_device_type_from_stats (sendSocketCommandBase net)) = true
          · rw [if_pos hm]; left; rfl
          · rw [if_neg hm]; left; rfl
        · have := except_pure_eq _ _ heq
          rw [this]
          by_cases hm : pyTruthy (get_device_type_from_stats (sendSocketCommandBase net)) = true
          · rw [if_pos hm]; left; rfl
          · rw [if_neg hm]; left; rfl
    · rw [if_pos rfl] at heq
      obtain ⟨ev, _, heq⟩ := except_bind_ok _ _ _ heq
      exact absurd (except_error_ne_ok _ _ heq) not_false
  · right; rfl

/-- Every T21 fetch result is tagged success or error. -/
theorem t21FetchLogs_status (ip : String) (env : T21Env) :
    (t21FetchLogs ip env).status = "success" ∨ (t21FetchLogs ip env).status = "error" := by
  unfold t21FetchLogs t21_fetch_logs_via_websocket t21_fallback_get_logs
  try dsimp only []
  split
  · split
    · right; rfl
    · left; rfl
  · split
    · split
      · right; rfl
      · split
        · right; rfl
        · right; rfl
    · right; rfl

/-- Every DG1+ fetch result is tagged success or error. -/
theorem dg1FetchLogs_status (ip : String) (http : HttpOutcome) :
    (dg1FetchLogs ip http).status = "success" ∨ (dg1FetchLogs ip http).status = "error" := by
  unfold dg1FetchLogs
  cases http with
  | exc m => right; rfl
  | response code body =>
    dsimp only []
    by_cases hc : code = 200
    · rw [if_pos hc]
      unfold dg1_parse_logs
      try dsimp only []
      split
      · right; rfl
      · left; rfl
    · rw [if_neg hc]
      right; rfl

/-- Every dictionary the Z15 log parse returns is tagged success. -/
theorem z15_parse_logs_status (b : String) (r : Z15Result)
    (h : z15_parse_logs b = .ok (some r)) : r.status = "success" := by
  unfold z15_parse_logs at h
  split at h
  · obtain ⟨hasLog, _, h⟩ := except_bind_ok _ _ _ h
    cases hasLog
    · rw [if_neg (by simp)] at h
      exact absurd (except_ok_none_ne _ h) not_false
    · rw [if_pos rfl] at h
      obtain ⟨v, _, h⟩ := except_bind_ok _ _ _ h
      by_cases ht : pyTruthy v = true
      · rw [if_pos ht] at h
        cases v with
        | str s => rw [except_ok_some_eq _ _ h]
        | null => exact absurd (except_error_ne_ok _ _ h) not_false
        | bool b2 => exact absurd (except_error_ne_ok _ _ h) not_false
        | num q => exact absurd (except_error_ne_ok _ _ h) not_false
        | arr xs => exact absurd (except_error_ne_ok _ _ h) not_false
        | obj es => exact absurd (except_error_ne_ok _ _ h) not_false
      · rw [if_neg ht] at h
        rw [except_ok_some_eq _ _ h]
  · try dsimp only [] at h
    rw [except_ok_some_eq _ _ h]

/-- When the Z15 fetch does return a dictionary, it is tagged success or
error (it can also return None or raise, see the C5 counterexample). -/
theorem z15FetchLogs_status (ip : String) (http : HttpOutcome) (r : Z15Result)
    (h : z15FetchLogs ip http = .ok (some r)) :
    r.status = "success" ∨ r.status = "error" := by
  unfold z15FetchLogs at h
  cases http with
  | exc m =>
    right
    rw [except_ok_some_eq _ _ h]
  | response code body =>
    try dsimp only [] at h
    by_cases hc : code = 200
    · rw [if_pos hc] at h
      left
      exact z15_parse_logs_status body r h
    · rw [if_neg hc] at h
      right
      rw [except_ok_some_eq _ _ h]

/-- A healthy Z15j socket payload: device type in STATS[0], two spinning
fans in STATS[1]. -/
def c5OkPayload : String :=
  "\x7b\"STATS\":[\x7b\"Type\":\"Antminer Z15j\"\x7d,\x7b\"fan_num\":2,\"fan1\":3000,\"fan2\":3100\x7d]\x7d"

/-- A Z15 log response whose JSON body has no "log" key. -/
def c5NoLogPayload : String := "\x7b\"x\":1\x7d"

/-- C5: every fetch_logs result is tagged — but with three tags, not two:
the Z15j handler can return status "ok" (both from its socket branch and
from its HTTP ignore-success branch), while the S21, S19j Pro, T21 and
DG1+ handlers use only "success" and "error"; the Z15 handler can also
return None or raise, and only its dictionary returns are tagged
"success" or "error". -/
theorem c5_status_values :
    (∀ ip sock http ig, isTaggedStatus (z15jFetchLogs ip sock http ig).status) ∧
    (∀ ip net, (s21FetchLogs ip net).status = "success" ∨
      (s21FetchLogs ip net).status = "error") ∧
    (∀ ip net, (s19jProFetchLogs ip net).status = "success" ∨
      (s19jProFetchLogs ip net).status = "error") ∧
    (∀ ip env, (t21FetchLogs ip env).status = "success" ∨
      (t21FetchLogs ip env).status = "error") ∧
    (∀ ip http, (dg1FetchLogs ip http).status = "success" ∨
      (dg1FetchLogs ip http).status = "error") ∧
    (∀ ip http r, z15FetchLogs ip http = .ok (some r) →
      r.status = "success" ∨ r.status = "error") := by
  refine ⟨z15jFetchLogs_status, ?_, ?_, t21FetchLogs_status, dg1FetchLogs_status,
    z15FetchLogs_status⟩
  · intro ip net
    exact socketFanFetch_status "S21+" ip net
  · intro ip net
    exact socketFanFetch_status "S19j Pro" ip net

/-- C5 counterexample to the two-tag reading: a healthy Z15j device gets
status "ok", which is neither "success" nor "error"; and the Z15 handler
can return None (no result dictionary at all) or raise a TypeError. -/
theorem c5_status_counterexample :
    (z15jFetchLogs "10.0.0.5" (.data c5OkPayload) (.exc "unused") true).status = "ok" ∧
    ((z15jFetchLogs "10.0.0.5" (.data c5OkPayload) (.exc "unused") true).status
      == "success") = false ∧
    ((z15jFetchLogs "10.0.0.5" (.data c5OkPayload) (.exc "unused") true).status
      == "error") = false ∧
    z15FetchLogs "10.0.0.5" (.response 200 c5NoLogPayload) = .ok none ∧
    z15FetchLogs "10.0.0.5" (.response 200 "123") =
      .error "TypeError: argument not iterable" := by
  refine ⟨?_, ?_, ?_, ?_, ?_⟩
  · with_unfolding_all rfl
  · with_unfolding_all rfl
  · with_unfolding_all rfl
  · with_unfolding_all rfl
  · with_unfolding_all rfl

end SubnetScanner
